import Mathlib

/-!
Verification development for the popup-promo-code attribution and extraction
engine found in `src/utils/extractPromoWithDiscounts.js`, the second
(`surgical fix`) variant of `src/utils/extractPromo.js`, and
`utils/discountParse.js`.

Text is modelled as a list of natural-number character codes (JavaScript
strings are sequences of UTF-16 code units; for the ASCII and BMP characters
appearing here, `Char.toNat` of each character of a Lean string literal is
the same code unit).  All scanners that model JavaScript regular expressions
are written as executable recursive functions whose doc comments state which
source regex they embed.
-/

/-- Character codes of a Lean string literal, the model of a JS string. -/
def str (s : String) : List Nat := s.data.map Char.toNat

/-- ASCII lowercasing of one character code, the model of
`String.prototype.toLowerCase` restricted to the ASCII letters that appear
in the scanned payloads. -/
def lowerC (n : Nat) : Nat := if 65 ≤ n ∧ n ≤ 90 then n + 32 else n

/-- Lowercase a whole string (character-code list). -/
def lowerL (s : List Nat) : List Nat := s.map lowerC

/-- `pat.isPrefixOf hay` on code lists. -/
def prefAt : List Nat → List Nat → Bool
  | [], _ => true
  | _ :: _, [] => false
  | p :: ps, h :: hs => if p = h then prefAt ps hs else false

/-- `hay.includes(pat)`: substring test, the model of `String.includes`
and of `/literal/.test`. -/
def hasSub (hay pat : List Nat) : Bool :=
  if prefAt pat hay then true else
    match hay with
    | [] => false
    | _ :: t => hasSub t pat

/-- Case-insensitive substring test, the model of `/literal/i.test` and of
`a.toLowerCase().includes(b.toLowerCase())`. -/
def hasSubCI (hay pat : List Nat) : Bool := hasSub (lowerL hay) (lowerL pat)

/-- `pat.isSuffixOf hay`, the model of `/pat$/.test hay` for a literal. -/
def endsWithL (hay pat : List Nat) : Bool := prefAt (pat.reverse) (hay.reverse)

/-- JS `\s` whitespace class (the ASCII part used by the payloads). -/
def isWs (n : Nat) : Bool := n = 32 ∨ n = 9 ∨ n = 10 ∨ n = 13 ∨ n = 12 ∨ n = 11

/-- Drop a maximal run of `\s` characters. -/
def skipWs : List Nat → List Nat
  | [] => []
  | c :: t => if isWs c then skipWs t else c :: t

/-- ASCII decimal digit. -/
def isDigit (n : Nat) : Bool := 48 ≤ n ∧ n ≤ 57

/-- Leading run of decimal digits. -/
def takeDigits (s : List Nat) : List Nat := s.takeWhile isDigit

/-- Numeric value of a digit-code list (the integer part of `parseFloat`). -/
def digitsToNat (ds : List Nat) : Nat := ds.foldl (fun acc d => acc * 10 + (d - 48)) 0

example : str "ab\x7b" = [97, 98, 123] := by decide
example : lowerL (str "PopUp-9") = str "popup-9" := by decide
example : hasSub (str "hello world") (str "lo wo") = true := by decide
example : hasSub (str "hello") (str "lo wo") = false := by decide
example : hasSubCI (str "PopupPromoCode") (str "promocode") = true := by decide
example : endsWithL (str "evilwhop.com") (str "whop.com") = true := by decide
example : endsWithL (str "evilwhop.com") (str ".whop.com") = false := by decide
example : digitsToNat (str "045") = 45 := by decide


/-!
Exact decimal numbers.

JavaScript numeric literals and the arithmetic the extractor performs on
them (`parseFloat`, `x * 100`, `ts / 1e6`, additions and comparisons) are
modelled exactly as decimal fractions `m / 10 ^ e`.  Every operation below
is plain integer arithmetic, so concrete runs of the model reduce inside
the kernel; `Dec.toRat` interprets a decimal as a rational for the
mathematical statements.
-/

/-- A decimal number `m / 10 ^ e`. -/
structure Dec where
  m : Int
  e : Nat
  deriving DecidableEq, Repr

/-- The rational value of a decimal. -/
def Dec.toRat (a : Dec) : ℚ := a.m / 10 ^ a.e

/-- Decimal addition. -/
def Dec.add (a b : Dec) : Dec := ⟨a.m * 10 ^ b.e + b.m * 10 ^ a.e, a.e + b.e⟩

/-- Multiplication by an integer (the model of `x * 100`). -/
def Dec.muln (a : Dec) (n : Int) : Dec := ⟨a.m * n, a.e⟩

/-- Division by `10 ^ k` (the model of `ts / 1e6`). -/
def Dec.divPow10 (a : Dec) (k : Nat) : Dec := ⟨a.m, a.e + k⟩

/-- Boolean strict order on decimals. -/
def Dec.blt (a b : Dec) : Bool := a.m * 10 ^ b.e < b.m * 10 ^ a.e

/-- Boolean order on decimals. -/
def Dec.ble (a b : Dec) : Bool := a.m * 10 ^ b.e ≤ b.m * 10 ^ a.e

/-- A natural number as a decimal. -/
def Dec.ofNat (n : Nat) : Dec := ⟨n, 0⟩

theorem Dec.toRat_ofNat (n : Nat) : (Dec.ofNat n).toRat = n := by
  simp [Dec.toRat, Dec.ofNat]

theorem Dec.toRat_add (a b : Dec) : (a.add b).toRat = a.toRat + b.toRat := by
  unfold Dec.toRat Dec.add
  push_cast
  rw [div_add_div _ _ (by positivity) (by positivity)]
  ring_nf

theorem Dec.toRat_muln (a : Dec) (n : Int) : (a.muln n).toRat = a.toRat * n := by
  unfold Dec.toRat Dec.muln
  push_cast
  ring

theorem Dec.toRat_divPow10 (a : Dec) (k : Nat) :
    (a.divPow10 k).toRat = a.toRat / 10 ^ k := by
  unfold Dec.toRat Dec.divPow10
  rw [pow_add]
  field_simp

theorem Dec.blt_iff (a b : Dec) : a.blt b = true ↔ a.toRat < b.toRat := by
  unfold Dec.blt Dec.toRat
  rw [div_lt_div_iff₀ (by positivity) (by positivity)]
  rw [decide_eq_true_iff]
  constructor
  · intro h
    exact_mod_cast h
  · intro h
    exact_mod_cast h

theorem Dec.ble_iff (a b : Dec) : a.ble b = true ↔ a.toRat ≤ b.toRat := by
  unfold Dec.ble Dec.toRat
  rw [div_le_div_iff₀ (by positivity) (by positivity)]
  rw [decide_eq_true_iff]
  constructor
  · intro h
    exact_mod_cast h
  · intro h
    exact_mod_cast h

example : (Dec.add ⟨125, 1⟩ ⟨5, 0⟩).toRat = 35 / 2 := by norm_num [Dec.add, Dec.toRat]
example : Dec.blt ⟨125, 1⟩ ⟨13, 0⟩ = true := by decide

/-!
Models of the numeric regular-expression matchers.

`matchPctAt cap s` models matching `(\d{1,cap}(?:\.\d+)?)\s*%` at the start
of `s` (with `cap = none` for an unbounded `\d+`), returning the captured
number (`parseFloat` of the capture) as a `Dec`.  Backtracking of the digit
run never helps in these patterns: shortening the greedy run leaves a digit
as the next character, which can match none of `.`, `\s`, `%`, so the
greedy reading below is exact.
-/

/-- Is the next character (after optional `\s*`) a percent sign? -/
def pctAfterWs (l : List Nat) : Bool :=
  match skipWs l with
  | 37 :: _ => true
  | _ => false

/-- Match `(\d{1,c}(?:\.\d+)?)\s*%` (or `\d+(?:\.\d+)?` when `cap = none`)
at the head of `s`; returns the captured value. -/
def matchPctAt (cap : Option Nat) (s : List Nat) : Option Dec :=
  if takeDigits s = [] then none
  else if (match cap with
           | some c => decide (c < (takeDigits s).length)
           | none => false) then none
  else
    match s.drop (takeDigits s).length with
    | 46 :: r2 =>
      if takeDigits r2 = [] then none
      else if pctAfterWs (r2.drop (takeDigits r2).length) then
        some ((Dec.ofNat (digitsToNat (takeDigits s))).add
          ⟨digitsToNat (takeDigits r2), (takeDigits r2).length⟩)
      else none
    | rest => if pctAfterWs rest then some (Dec.ofNat (digitsToNat (takeDigits s))) else none

/-- First (leftmost) match of the percent pattern in `s`: the model of
`win.match(/(\d{1,2}(?:\.\d+)?)\s*%/)` (with `cap = some 2`, the
windowed-text fallback pattern of `extractPopupPromoFromNetwork`) and of
`s.match(/(\d+(?:\.\d+)?)\s*%/)` (with `cap = none`, the `discountOff`
string pattern of `normalizeDiscountFromObject`). -/
def scanPct (cap : Option Nat) : List Nat → Option Dec
  | [] => none
  | c :: t =>
    match matchPctAt cap (c :: t) with
    | some v => some v
    | none => scanPct cap t

example : scanPct (some 2) (str "get 20% off") = some ⟨20, 0⟩ := by decide
example : scanPct (some 2) (str "100%") = some ⟨0, 0⟩ := by decide
example : scanPct (some 2) (str "125%") = some ⟨25, 0⟩ := by decide
example : scanPct (some 2) (str "12.5%") = some ⟨125, 1⟩ := by decide
example : scanPct (some 2) (str "no percent here") = none := by decide
example : scanPct none (str "125%") = some ⟨125, 0⟩ := by decide

/-- Match `(\d+(?:\.\d+)?)` at the head of `s`: the number read greedily
from a leading digit.  Used for `/(\d+(?:\.\d+)?)\s*%?/` (`normPercent`),
whose tail is entirely optional, so the capture is just the number. -/
def matchNumAt (s : List Nat) : Option Dec :=
  let ds := takeDigits s
  if ds = [] then none
  else
    let v : Dec := Dec.ofNat (digitsToNat ds)
    match s.drop ds.length with
    | 46 :: r2 =>
      let fs := takeDigits r2
      if fs = [] then some v
      else some (v.add ⟨digitsToNat fs, fs.length⟩)
    | _ => some v

/-- Leftmost match of `/(\d+(?:\.\d+)?)\s*%?/`: the first number in the
string (model of the capture used by `normPercent`). -/
def scanNum : List Nat → Option Dec
  | [] => none
  | c :: t =>
    match matchNumAt (c :: t) with
    | some v => some v
    | none => scanNum t

example : scanNum (str "20%") = some ⟨20, 0⟩ := by decide
example : scanNum (str "x3.5") = some ⟨35, 1⟩ := by decide
example : scanNum (str "none") = none := by decide

/-- The hostname of a URL: the model of `new URL(u).hostname` (simplified
to the scheme-and-authority shape of the URLs the scraper meets: the text
after the first `://` up to the first `/`, `:`, `?` or `#`, lowercased; an
input without `://` stands for a parse failure, giving `""` as in the
source's `try \x7b hn = new URL(resp.url()).hostname \x7d catch \x7b\x7d`). -/
def urlHostname (u : List Nat) : List Nat :=
  hostAux u
where
  /-- Find the `://` separator and cut the authority off. -/
  hostAux : List Nat → List Nat
    | 58 :: 47 :: 47 :: rest =>
      lowerL (rest.takeWhile (fun c => !(c = 47 ∨ c = 58 ∨ c = 63 ∨ c = 35)))
    | [] => []
    | _ :: t => hostAux t

example : urlHostname (str "https://whop.com/page?x=1") = str "whop.com" := by decide
example : urlHostname (str "https://API.Whop.com:443/x") = str "api.whop.com" := by decide
example : urlHostname (str "not a url") = [] := by decide

/-- Case-insensitive prefix test (character-wise ASCII folding), used for
every `/literal/i` fragment. -/
def prefCI : List Nat → List Nat → Bool
  | [], _ => true
  | _ :: _, [] => false
  | p :: ps, h :: hs => if lowerC p = lowerC h then prefCI ps hs else false

/-- Number of leading `\s` characters. -/
def countWs (l : List Nat) : Nat := (l.takeWhile isWs).length

/-- Model of `/"key"\s*:\s*"([^"]+)"/i.exec(s)?.[1]`: the first captured
value for `key` in `s` (used on GraphQL POST bodies for `route`,
`productId`, `companyId`). -/
def keyCaptureAt (key s : List Nat) : Option (List Nat) :=
  let pat := 34 :: (key ++ [34])
  if prefCI pat s then
    match skipWs (s.drop pat.length) with
    | 58 :: r2 =>
      match skipWs r2 with
      | 34 :: r3 =>
        let cap := r3.takeWhile (fun c => c ≠ 34)
        if cap = [] then none
        else
          match r3.drop cap.length with
          | 34 :: _ => some cap
          | _ => none
      | _ => none
    | _ => none
  else none

/-- Leftmost `keyCaptureAt` match in the string. -/
def execCaptureKey (key : List Nat) : List Nat → Option (List Nat)
  | [] => none
  | c :: t =>
    match keyCaptureAt key (c :: t) with
    | some v => some v
    | none => execCaptureKey key t

example : execCaptureKey (str "route") (str "x \"Route\" : \"The-Yard\" y") =
    some (str "The-Yard") := by decide
example : execCaptureKey (str "route") (str "no such key") = none := by decide

/-- Model of `/"popupPromoCode"\s*:/.test(body)` (case-sensitive): the
structured promo-record marker. -/
def hasStructuredMarker : List Nat → Bool
  | [] => false
  | c :: t =>
    (prefAt (str "\"popupPromoCode\"") (c :: t) &&
      (match skipWs ((c :: t).drop 16) with
       | 58 :: _ => true
       | _ => false)) ||
    hasStructuredMarker t

example : hasStructuredMarker (str "x\x7b\"popupPromoCode\" : \x7b\"code\":1\x7d\x7d") = true := by
  decide
example : hasStructuredMarker (str "popupPromoCode plain mention") = false := by decide

/-- A character of the promo-token class `[a-z0-9-]` under `/i`. -/
def isTokenChar (n : Nat) : Bool :=
  (97 ≤ n ∧ n ≤ 122) ∨ (65 ≤ n ∧ n ≤ 90) ∨ (48 ≤ n ∧ n ≤ 57) ∨ n = 45

/-- Match `promo-[a-z0-9-]{6,}` (case-insensitive, greedy) at the head of
`s`; returns the raw matched token. -/
def promoTokAt (s : List Nat) : Option (List Nat) :=
  if prefCI (str "promo-") s then
    let run := (s.drop 6).takeWhile isTokenChar
    if 6 ≤ run.length then some (s.take (6 + run.length)) else none
  else none

example : promoTokAt (str "promo-784ede4b\" x") = some (str "promo-784ede4b") := by decide
example : promoTokAt (str "promo-abc\" x") = none := by decide

/-- Does the string contain a `promo-[a-z0-9-]{6,}` token anywhere
(model of `/promo-[a-z0-9-]{6,}/i.test`)? -/
def hasPromoTok : List Nat → Bool
  | [] => false
  | c :: t => (promoTokAt (c :: t)).isSome || hasPromoTok t

/-!
The four `PROMO_REGEXES` of both extractor variants, as match scanners.
Each scanner models `matchAll` of a `/.../gi` pattern: matches are found
leftmost-first and scanning resumes after the end of each match.  Every
scanner yields `(raw captured token, match start index)` pairs.
-/

/-- Match the inner `"code"\s*:\s*"(promo-[a-z0-9-]{6,})"` (case-insensitive)
at the head of `s`; returns the token and the total matched length. -/
def codeInnerAt (s : List Nat) : Option (List Nat × Nat) :=
  let pat := str "\"code\""
  if prefCI pat s then
    let r1 := s.drop pat.length
    let w1 := countWs r1
    match r1.drop w1 with
    | 58 :: r2 =>
      let w2 := countWs r2
      match r2.drop w2 with
      | 34 :: r3 =>
        match promoTokAt r3 with
        | some tok =>
          match r3.drop tok.length with
          | 34 :: _ => some (tok, pat.length + w1 + 1 + w2 + 1 + tok.length + 1)
          | _ => none
        | none => none
      | _ => none
    | _ => none
  else none

/-- Rightmost `codeInnerAt` match within a brace-free span (the greedy
`[^}]*` of the structured pattern backtracks from the right, so the last
viable `"code"` wins).  Returns `(token, start offset, matched length)`. -/
def lastCodeInner : List Nat → Nat → Option (List Nat × Nat × Nat) →
    Option (List Nat × Nat × Nat)
  | [], _, best => best
  | c :: t, off, best =>
    lastCodeInner t (off + 1)
      (match codeInnerAt (c :: t) with
       | some (tok, len) => some (tok, off, len)
       | none => best)

/-- Match the full structured pattern
`"popupPromoCode"\s*:\s*\{[^}]*"code"\s*:\s*"(promo-[a-z0-9-]{6,})"`
(case-insensitive) at the head of `s`; returns the token and the length of
the whole match. -/
def structuredAt (s : List Nat) : Option (List Nat × Nat) :=
  let pat := str "\"popupPromoCode\""
  if prefCI pat s then
    let r1 := s.drop pat.length
    let w1 := countWs r1
    match r1.drop w1 with
    | 58 :: r2 =>
      let w2 := countWs r2
      match r2.drop w2 with
      | 123 :: r3 =>
        let span := r3.takeWhile (fun c => c ≠ 125)
        match lastCodeInner span 0 none with
        | some (tok, off, innerLen) =>
          some (tok, pat.length + w1 + 1 + w2 + 1 + off + innerLen)
        | none => none
      | _ => none
    | _ => none
  else none

/-- Generic `matchAll` driver: repeatedly try `mAt` on the remaining
suffix, resume after each match (or advance one character), reporting match
start indices. -/
def scanAll (mAt : List Nat → Option (List Nat × Nat)) :
    Nat → List Nat → Nat → List (List Nat × Nat)
  | 0, _, _ => []
  | fuel + 1, s, pos =>
    match mAt s with
    | some (tok, len) =>
      (tok, pos) :: scanAll mAt fuel (s.drop (max len 1)) (pos + max len 1)
    | none =>
      match s with
      | [] => []
      | _ :: t => scanAll mAt fuel t (pos + 1)

/-- All matches of the structured pattern (`PROMO_REGEXES[0]`). -/
def scanStructured (s : List Nat) : List (List Nat × Nat) :=
  scanAll structuredAt (s.length + 1) s 0

/-- Match `[?&]promoCode=(promo-[a-z0-9-]{6,})` (case-insensitive) at the
head of `s`. -/
def urlParamAt (s : List Nat) : Option (List Nat × Nat) :=
  match s with
  | c :: t =>
    if c = 63 ∨ c = 38 then
      if prefCI (str "promoCode=") t then
        match promoTokAt (t.drop 10) with
        | some tok => some (tok, 1 + 10 + tok.length)
        | none => none
      else none
    else none
  | [] => none

/-- All matches of the URL-parameter pattern (`PROMO_REGEXES[1]`). -/
def scanUrlParam (s : List Nat) : List (List Nat × Nat) :=
  scanAll urlParamAt (s.length + 1) s 0

/-- Match `"(promo-[a-z0-9-]{6,})"` (case-insensitive) at the head of `s`. -/
def quotedAt (s : List Nat) : Option (List Nat × Nat) :=
  match s with
  | 34 :: t =>
    match promoTokAt t with
    | some tok =>
      match t.drop tok.length with
      | 34 :: _ => some (tok, tok.length + 2)
      | _ => none
    | none => none
  | _ => none

/-- All matches of the quoted pattern (`PROMO_REGEXES[2]`). -/
def scanQuoted (s : List Nat) : List (List Nat × Nat) :=
  scanAll quotedAt (s.length + 1) s 0

/-- `[a-z0-9]` under `/i`: the complement class of the bare pattern's
boundary (note `-` is not alphanumeric, so a hyphen is a valid boundary). -/
def isAlnum (n : Nat) : Bool :=
  (97 ≤ n ∧ n ≤ 122) ∨ (65 ≤ n ∧ n ≤ 90) ∨ (48 ≤ n ∧ n ≤ 57)

/-- Match `(?:^|[^a-z0-9])(promo-[a-z0-9-]{6,})(?=[^a-z0-9]|$)` at the head
of `s`; `atStart` tells whether the head is position 0 (for the `^`
alternative, which the engine tries first).  The lookahead is automatically
satisfied after a greedy token run, since the follower of the run is not a
token character, hence not alphanumeric. -/
def bareAt (atStart : Bool) (s : List Nat) : Option (List Nat × Nat) :=
  match (if atStart then promoTokAt s else none) with
  | some tok => some (tok, tok.length)
  | none =>
    match s with
    | c :: t =>
      if isAlnum c then none
      else
        match promoTokAt t with
        | some tok => some (tok, 1 + tok.length)
        | none => none
    | [] => none

/-- All matches of the bare pattern (`PROMO_REGEXES[3]`): the `^`
alternative only applies at index 0. -/
def scanBare (s : List Nat) : List (List Nat × Nat) :=
  match bareAt true s with
  | some (tok, len) =>
    (tok, 0) :: scanAll (bareAt false) (s.length + 1) (s.drop (max len 1)) (max len 1)
  | none => scanAll (bareAt false) (s.length + 1) s 0

example : scanStructured (str "\x7b\"popupPromoCode\":\x7b\"code\":\"promo-784ede4b\"\x7d\x7d") =
    [(str "promo-784ede4b", 1)] := by decide
example : scanQuoted (str "\"promo-784ede4b\",\"promo-022d1f18\"") =
    [(str "promo-784ede4b", 0), (str "promo-022d1f18", 17)] := by decide
example : scanBare (str "promo-784ede4b y") = [(str "promo-784ede4b", 0)] := by decide
example : scanBare (str "xpromo-784ede4b") = [] := by decide
example : scanBare (str " promo-784ede4b") = [(str "promo-784ede4b", 0)] := by decide
example : scanUrlParam (str "https://whop.com/x?promoCode=promo-784ede4b&z=1") =
    [(str "promo-784ede4b", 18)] := by decide

/-!
A model of JavaScript JSON values and of `JSON.parse`.  Numbers are exact
decimals (`Dec`); strings are code-unit lists.  Object fields keep their
textual order; duplicate keys resolve to the last occurrence, as in
JavaScript.
-/

/-- JSON values. -/
inductive Json where
  | null : Json
  | bool : Bool → Json
  | num : Dec → Json
  | str : List Nat → Json
  | arr : List Json → Json
  | obj : List (List Nat × Json) → Json

/-- Last binding of a key (JS duplicate-key semantics). -/
def lookupLast : List (List Nat × Json) → List Nat → Option Json
  | [], _ => none
  | (k, v) :: t, key =>
    match lookupLast t key with
    | some r => some r
    | none => if k = key then some v else none

/-- Property access `node[key]`: `none` models `undefined` (including any
access on a non-object). -/
def Json.getField (j : Json) (key : List Nat) : Option Json :=
  match j with
  | Json.obj fs => lookupLast fs key
  | _ => none

/-- JavaScript truthiness of a JSON value. -/
def jsTruthy : Json → Bool
  | Json.null => false
  | Json.bool b => b
  | Json.num q => !(q.m = 0)
  | Json.str s => !(s = [])
  | Json.arr _ => true
  | Json.obj _ => true

/-- Hex digit value. -/
def hexVal (n : Nat) : Option Nat :=
  if 48 ≤ n ∧ n ≤ 57 then some (n - 48)
  else if 97 ≤ n ∧ n ≤ 102 then some (n - 87)
  else if 65 ≤ n ∧ n ≤ 70 then some (n - 55)
  else none

/-- Parse the characters of a JSON string after its opening quote;
returns the contents and the remaining input after the closing quote. -/
def parseStrChars : List Nat → Option (List Nat × List Nat)
  | [] => none
  | 34 :: r => some ([], r)
  | 92 :: 117 :: h1 :: h2 :: h3 :: h4 :: r =>
    match hexVal h1, hexVal h2, hexVal h3, hexVal h4 with
    | some a, some b, some c, some d =>
      (parseStrChars r).map (fun p => ((a * 4096 + b * 256 + c * 16 + d) :: p.1, p.2))
    | _, _, _, _ => none
  | 92 :: e :: r =>
    match
      (if e = 34 then some 34 else if e = 92 then some 92 else
       if e = 47 then some 47 else if e = 98 then some 8 else
       if e = 102 then some 12 else if e = 110 then some 10 else
       if e = 114 then some 13 else if e = 116 then some 9 else none : Option Nat)
    with
    | some c => (parseStrChars r).map (fun p => (c :: p.1, p.2))
    | none => none
  | c :: r =>
    if c < 32 then none
    else (parseStrChars r).map (fun p => (c :: p.1, p.2))

/-- Parse the fraction and exponent part of a JSON number after the integer
part `iv`; `neg` is the sign. -/
def parseNumTail (neg : Bool) (iv : Nat) (s : List Nat) : Option (Dec × List Nat) :=
  let fracStep : Option (Nat × Nat × List Nat) :=
    match s with
    | 46 :: r =>
      let fs := takeDigits r
      if fs = [] then none
      else some (digitsToNat fs, fs.length, r.drop fs.length)
    | _ => some (0, 0, s)
  match fracStep with
  | none => none
  | some (fv, fl, s2) =>
    let mant : Int := (iv * 10 ^ fl + fv : Nat)
    let mant := if neg then -mant else mant
    match s2 with
    | e :: r3 =>
      if e = 101 ∨ e = 69 then
        let (eneg, r4) : Bool × List Nat :=
          match r3 with
          | 45 :: t => (true, t)
          | 43 :: t => (false, t)
          | _ => (false, r3)
        let es := takeDigits r4
        if es = [] then none
        else
          let ev := digitsToNat es
          let d : Dec :=
            if eneg then ⟨mant, fl + ev⟩ else ⟨mant * 10 ^ ev, fl⟩
          some (d, r4.drop es.length)
      else some (⟨mant, fl⟩, s2)
    | [] => some (⟨mant, fl⟩, s2)

/-- Parse a JSON number at the head of `s` (strict JSON grammar: optional
minus, `0` or a nonzero-led digit run, optional fraction, optional
exponent). -/
def parseNumber (s : List Nat) : Option (Dec × List Nat) :=
  let (neg, s1) : Bool × List Nat :=
    match s with
    | 45 :: t => (true, t)
    | _ => (false, s)
  match s1 with
  | 48 :: d :: rest =>
    if isDigit d then none else parseNumTail neg 0 (d :: rest)
  | [48] => parseNumTail neg 0 []
  | d :: rest =>
    if 49 ≤ d ∧ d ≤ 57 then
      let ds := takeDigits (d :: rest)
      parseNumTail neg (digitsToNat ds) ((d :: rest).drop ds.length)
    else none
  | [] => none

/-- One parsing pass over the members of a JSON array; `pv` parses one
value, `allowEnd` permits an immediate `]`. -/
def arrLoop (pv : List Nat → Option (Json × List Nat)) :
    Nat → Bool → List Nat → Option (List Json × List Nat)
  | 0, _, _ => none
  | f + 1, allowEnd, s =>
    match skipWs s with
    | 93 :: r => if allowEnd then some ([], r) else none
    | _ =>
      match pv s with
      | some (v, r1) =>
        match skipWs r1 with
        | 44 :: r2 => (arrLoop pv f false r2).map (fun p => (v :: p.1, p.2))
        | 93 :: r2 => some ([v], r2)
        | _ => none
      | none => none

/-- One parsing pass over the members of a JSON object. -/
def objLoop (pv : List Nat → Option (Json × List Nat)) :
    Nat → Bool → List Nat → Option (List (List Nat × Json) × List Nat)
  | 0, _, _ => none
  | f + 1, allowEnd, s =>
    match skipWs s with
    | 125 :: r => if allowEnd then some ([], r) else none
    | 34 :: r =>
      match parseStrChars r with
      | some (k, r1) =>
        match skipWs r1 with
        | 58 :: r2 =>
          match pv r2 with
          | some (v, r3) =>
            match skipWs r3 with
            | 44 :: r4 => (objLoop pv f false r4).map (fun p => ((k, v) :: p.1, p.2))
            | 125 :: r4 => some ([(k, v)], r4)
            | _ => none
          | none => none
        | _ => none
      | none => none
    | _ => none

/-- Parse one JSON value (fueled). -/
def parseV : Nat → List Nat → Option (Json × List Nat)
  | 0, _ => none
  | f + 1, s =>
    match skipWs s with
    | 110 :: 117 :: 108 :: 108 :: r => some (Json.null, r)
    | 116 :: 114 :: 117 :: 101 :: r => some (Json.bool true, r)
    | 102 :: 97 :: 108 :: 115 :: 101 :: r => some (Json.bool false, r)
    | 34 :: r => (parseStrChars r).map (fun p => (Json.str p.1, p.2))
    | 91 :: r => (arrLoop (parseV f) (f + 1) true r).map (fun p => (Json.arr p.1, p.2))
    | 123 :: r => (objLoop (parseV f) (f + 1) true r).map (fun p => (Json.obj p.1, p.2))
    | r => (parseNumber r).map (fun p => (Json.num p.1, p.2))

/-- The model of `JSON.parse` (returning `none` where it would throw) and
hence of the source's `safeJsonParse`. -/
def parseJson (s : List Nat) : Option Json :=
  match parseV (2 * s.length + 2) s with
  | some (v, rest) => if skipWs rest = [] then some v else none
  | none => none

example : parseJson (str "\x7b\"a\": 1, \"b\":[true, null, \"x\"]\x7d") =
    some (Json.obj [(str "a", Json.num ⟨1, 0⟩),
      (str "b", Json.arr [Json.bool true, Json.null, Json.str (str "x")])]) := by rfl
example : parseJson (str "\x7b\"p\": 0.30\x7d") =
    some (Json.obj [(str "p", Json.num ⟨30, 2⟩)]) := by rfl
example : parseJson (str "-1.5e2") = some (Json.num ⟨-1500, 1⟩) := by rfl
example : parseJson (str "\x7b\"a\":1") = none := by rfl
example : parseJson (str "01") = none := by rfl
example : parseJson (str "\x7b\"s\":\"a\\\"b\"\x7d") =
    some (Json.obj [(str "s", Json.str [97, 34, 98])]) := by rfl

/-- `hay.indexOf(pat)` as an option (JS `-1` becomes `none`). -/
def indexOfSub (hay pat : List Nat) : Option Nat :=
  go hay 0
where
  /-- Scan for the leftmost occurrence. -/
  go : List Nat → Nat → Option Nat
    | h, pos =>
      if prefAt pat h then some pos
      else
        match h with
        | [] => none
        | _ :: t => go t (pos + 1)

/-- `l.lastIndexOf(ch, upto)`: the largest index `≤ upto` holding `ch`. -/
def lastIndexOfChar (ch : Nat) (l : List Nat) (upto : Nat) : Option Nat :=
  go l 0 none
where
  /-- Walk the list keeping the last admissible hit. -/
  go : List Nat → Nat → Option Nat → Option Nat
    | [], _, best => best
    | c :: t, i, best =>
      if upto < i then best
      else go t (i + 1) (if c = ch then some i else best)

/-- Length of the balanced-brace prefix: starting on a `\x7b`, walk forward
tracking nesting depth (quotes are NOT respected, exactly as in the source)
until depth returns to zero; `none` if it never does. -/
def balanceEnd (l : List Nat) : Option Nat :=
  go l 0 0
where
  /-- Depth-tracking walk. -/
  go : List Nat → Int → Nat → Option Nat
    | [], _, _ => none
    | c :: t, depth, i =>
      if c = 123 then go t (depth + 1) (i + 1)
      else if c = 125 then
        if depth - 1 = 0 then some (i + 1) else go t (depth - 1) (i + 1)
      else go t depth (i + 1)

/-- `s.replace(/\\"/g, String.fromCharCode(34))`: the RSC quote unescape. -/
def unescapeRsc : List Nat → List Nat
  | 92 :: 34 :: t => 34 :: unescapeRsc t
  | c :: t => c :: unescapeRsc t
  | [] => []

/-- `sliceEnclosingJsonObject(text, codeIndex, maxSpan = 4000)` of
`extractPromoWithDiscounts.js`: restrict to a `±4000` window, find the last
opening brace at or before the anchor, and cut the balanced slice. -/
def sliceEnclosingJsonObject (text : List Nat) (codeIndex : Nat) : Option (List Nat) :=
  let start := codeIndex - 4000
  let stop := min text.length (codeIndex + 4000)
  let window := (text.drop start).take (stop - start)
  match lastIndexOfChar 123 window (codeIndex - start) with
  | none => none
  | some left =>
    match balanceEnd (window.drop left) with
    | some len => some ((window.drop left).take len)
    | none => none

example : sliceEnclosingJsonObject (str "ab\x7b\"x\":\x7b\"y\":1\x7d\x7dcd") 9 =
    some (str "\x7b\"y\":1\x7d") := by decide

/-- `extractNearestJsonObject(text, codeIndex)` of `extractPromo.js`: walk
back to the previous `\x7b`, forward to the matching `\x7d` (with `end`
falling back to `codeIndex` when unbalanced), then try `JSON.parse` on the
raw slice and on its quote-unescaped variant. -/
def extractNearestJsonObject (text : List Nat) (codeIndex : Nat) : Option Json :=
  match lastIndexOfChar 123 text codeIndex with
  | none => none
  | some start =>
    let stop :=
      match balanceEnd (text.drop start) with
      | some len => start + len
      | none => codeIndex
    if stop ≤ start then none
    else
      let raw := (text.drop start).take (stop - start)
      match parseJson raw with
      | some v => some v
      | none => parseJson (unescapeRsc raw)

/-- A normalized discount record: `\x7bpercent_off, amount_off, currency\x7d`. -/
structure DiscountRecord where
  percent_off : Option Dec
  amount_off : Option Dec
  currency : Option (List Nat)
  deriving DecidableEq, Repr

/-- Match `([$£€])\s*(\d+(?:\.\d+)?)` at the head of `s`: a currency symbol,
optional whitespace and a number. -/
def matchMoneyAt (s : List Nat) : Option (Nat × Dec) :=
  match s with
  | c :: t =>
    if c = 36 ∨ c = 163 ∨ c = 8364 then
      match matchNumAt (skipWs t) with
      | some v => some (c, v)
      | none => none
    else none
  | [] => none

/-- Leftmost match of the money pattern (used on `note` strings and on the
windowed-text fallback). -/
def scanMoney : List Nat → Option (Nat × Dec)
  | [] => none
  | c :: t =>
    match matchMoneyAt (c :: t) with
    | some v => some v
    | none => scanMoney t

/-- The currency code chosen for a matched symbol:
`$` is USD, `£` is GBP, anything else (here `€`) is EUR. -/
def currencyOf (sym : Nat) : List Nat :=
  if sym = 36 then str "USD" else if sym = 163 then str "GBP" else str "EUR"

example : scanMoney (str "was $ 12.50 off") = some (36, ⟨1250, 2⟩) := by decide
example : scanMoney (str "no money") = none := by decide

/-- First truthy value among JS `||` alternatives, with a final fallback. -/
def firstTruthy : List (Option Json) → Option Json → Option Json
  | [], dflt => dflt
  | x :: t, dflt =>
    match x with
    | some j => if jsTruthy j then some j else firstTruthy t dflt
    | none => firstTruthy t dflt

/-- The `percent_off` assignment chain of `normalizeDiscountFromObject`
(`extractPromoWithDiscounts.js` lines 95-109):

* an `amountOff` number in `(0, 1]` is read as a fractional percentage and
  multiplied by 100;
* a `percentOff` number overrides it verbatim;
* a `discountOff` string matching `(\d+(?:\.\d+)?)\s*%` overrides both.

(Non-string `currency` members and exotic `Number(...)` coercions are not
modelled; the payloads carry strings and numbers in these members.) -/
def percentFromObject (o : Json) : Option Dec :=
  let p1 : Option Dec :=
    match o.getField (str "amountOff") with
    | some (Json.num a) =>
      if Dec.blt ⟨0, 0⟩ a && Dec.ble a ⟨1, 0⟩ then some (a.muln 100) else none
    | _ => none
  let p2 : Option Dec :=
    match o.getField (str "percentOff") with
    | some (Json.num p) => some p
    | _ => p1
  match o.getField (str "discountOff") with
  | some (Json.str s) =>
    match scanPct none s with
    | some v => some v
    | none => p2
  | _ => p2

/-- The `amount_off`/`currency` assignments of `normalizeDiscountFromObject`:
the money-object chain, then the `note` fallback. -/
def amountFromObject (o : Json) : Option Dec × Option (List Nat) :=
  let constructed : Option Json :=
    match o.getField (str "amount"), o.getField (str "currency") with
    | some a, some c =>
      if jsTruthy a && jsTruthy c then
        some (Json.obj [(str "amount", a), (str "currency", c)])
      else none
    | _, _ => none
  let moneyObj : Option Json :=
    firstTruthy
      [o.getField (str "amountOffMoney"), o.getField (str "priceOff"),
       o.getField (str "fixedOff")] constructed
  let ac1 : Option Dec × Option (List Nat) :=
    match moneyObj with
    | some mo =>
      match mo.getField (str "amount") with
      | some (Json.num q) =>
        (some q,
         match mo.getField (str "currency") with
         | some (Json.str c) => if c = [] then none else some c
         | _ => none)
      | _ => (none, none)
    | none => (none, none)
  match ac1.1 with
  | some _ => ac1
  | none =>
    match o.getField (str "note") with
    | some (Json.str s) =>
      match scanMoney s with
      | some (sym, v) => (some v, some (currencyOf sym))
      | none => ac1
    | _ => ac1

/-- `normalizeDiscountFromObject(obj)` of `extractPromoWithDiscounts.js`,
assembled from its two assignment chains and the final all-null gate. -/
def normalizeDiscountFromObject (o : Json) : Option DiscountRecord :=
  let p3 := percentFromObject o
  let ac2 := amountFromObject o
  if p3 = none ∧ ac2.1 = none then none
  else some ⟨p3, ac2.1, ac2.2⟩

example : normalizeDiscountFromObject (Json.obj [(str "amountOff", Json.num ⟨30, 2⟩)]) =
    some ⟨some ⟨3000, 2⟩, none, none⟩ := by rfl
example : normalizeDiscountFromObject (Json.obj [(str "percentOff", Json.num ⟨45, 0⟩)]) =
    some ⟨some ⟨45, 0⟩, none, none⟩ := by rfl
example : normalizeDiscountFromObject (Json.obj [(str "discountOff", Json.str (str "20%"))]) =
    some ⟨some ⟨20, 0⟩, none, none⟩ := by rfl
example : normalizeDiscountFromObject (Json.obj [(str "code", Json.str (str "x"))]) =
    none := by rfl

/-- `/^promo-[a-z0-9-]{6,}$/i.test(s)`: an anchored full-string promo code. -/
def isPromoCodeStr (s : List Nat) : Bool :=
  prefCI (str "promo-") s &&
    decide (6 ≤ ((s.drop 6).takeWhile isTokenChar).length) &&
    decide ((s.drop 6).takeWhile isTokenChar = s.drop 6)

example : isPromoCodeStr (str "promo-784ede4b") = true := by decide
example : isPromoCodeStr (str "Promo-784EDE4B") = true := by decide
example : isPromoCodeStr (str "promo-784ede4b extra") = false := by decide
example : isPromoCodeStr (str "promo-abc") = false := by decide

/-- First `some` produced by `f` over a list. -/
def firstSome {α β : Type} (f : α → Option β) : List α → Option β
  | [] => none
  | x :: t =>
    match f x with
    | some r => some r
    | none => firstSome f t

/-- A bundle found by the structured walk: the code (lowercased) and the
spread of `normalizeDiscountFromObject` (whose `null` spreads to nothing,
leaving all discount members undefined). -/
structure Bundle where
  code : List Nat
  disc : Option DiscountRecord
  deriving DecidableEq, Repr

/-- The recursive walk `dfs(node)` inside `extractBundleFromBody`: report
the first node carrying a promo-shaped `code` string (or a truthy object
`popupPromoCode` member carrying one), normalizing its discount fields;
otherwise recurse over the node's members in key order. -/
def dfs : Nat → Json → Option Bundle
  | 0, _ => none
  | f + 1, node =>
    match node with
    | Json.obj fs =>
      match
        (match lookupLast fs (str "code") with
         | some (Json.str c) =>
           if isPromoCodeStr c then some (⟨lowerL c, normalizeDiscountFromObject node⟩ : Bundle)
           else none
         | _ => none)
      with
      | some b => some b
      | none =>
        match
          (match lookupLast fs (str "popupPromoCode") with
           | some p =>
             if jsTruthy p then
               match p with
               | Json.obj _ =>
                 match p.getField (str "code") with
                 | some (Json.str c) =>
                   if isPromoCodeStr c then some (⟨lowerL c, normalizeDiscountFromObject p⟩ : Bundle)
                   else none
                 | _ => none
               | Json.arr _ => none
               | _ => none
             else none
           | none => none)
        with
        | some b => some b
        | none => firstSome (fun kv => dfs f kv.2) fs
    | Json.arr xs => firstSome (dfs f) xs
    | _ => none

/-- `extractBundleFromBody(body, codeIndex)` of
`extractPromoWithDiscounts.js`: slice the enclosing balanced object, parse
it (a falsy parse counts as failure through `if (!obj)`), and walk it. -/
def extractBundleFromBody (body : List Nat) (codeIndex : Nat) : Option Bundle :=
  match sliceEnclosingJsonObject body codeIndex with
  | none => none
  | some jsonSlice =>
    match parseJson jsonSlice with
    | some obj => if jsTruthy obj then dfs (jsonSlice.length + 1) obj else none
    | none => none

example :
    extractBundleFromBody
      (str "x\x7b\"popupPromoCode\":\x7b\"code\":\"promo-784ede4b\",\"discountOff\":\"20%\"\x7d\x7dy")
      25 =
    some ⟨str "promo-784ede4b", some ⟨some ⟨20, 0⟩, none, none⟩⟩ := by rfl
example : extractBundleFromBody (str "no braces at all") 3 = none := by rfl

/-!
The `bulletproof` discount helpers of the second `extractPromo.js` variant:
`sliceAround`, `extractDiscountFieldsFromSnippet` (split here into its
object and string halves), `normPercent`, `numOrNull`, `intOrNull`, and the
three window regexes of the string half.
-/

/-- `sliceAround(s, idx, pad)`: a clamped window around an index. -/
def sliceAround (s : List Nat) (idx pad : Nat) : List Nat :=
  let start := idx - pad
  let stop := min s.length (idx + pad)
  (s.drop start).take (stop - start)

/-- Whitespace-trim on both ends (JS `Number` coercion trims its input). -/
def trimWs (s : List Nat) : List Nat := ((skipWs ((skipWs s).reverse)).reverse)

/-- JS `Number(string)` restricted to plain decimal literals: optional
sign, digits with an optional fraction; anything else is NaN, modelled as
`none` (the payloads carry no hex/exponent strings). -/
def jsNumString (s : List Nat) : Option Dec :=
  let t := trimWs s
  if t = [] then some ⟨0, 0⟩
  else
    let (neg, t2) : Bool × List Nat :=
      match t with
      | 45 :: r => (true, r)
      | 43 :: r => (false, r)
      | _ => (false, t)
    let ds := takeDigits t2
    let r2 := t2.drop ds.length
    let frac : Option (Nat × Nat × List Nat) :=
      match r2 with
      | 46 :: r3 =>
        let fs := takeDigits r3
        if ds = [] ∧ fs = [] then none
        else some (digitsToNat fs, fs.length, r3.drop fs.length)
      | _ => if ds = [] then none else some (0, 0, r2)
    match frac with
    | none => none
    | some (fv, fl, rest) =>
      if rest = [] then
        let mant : Int := (digitsToNat ds * 10 ^ fl + fv : Nat)
        some ⟨if neg then -mant else mant, fl⟩
      else none

/-- `parseInt(s, 10)`: leading whitespace, optional sign, digit prefix. -/
def parseIntPrefix (s : List Nat) : Option Int :=
  let t := skipWs s
  let (neg, t2) : Bool × List Nat :=
    match t with
    | 45 :: r => (true, r)
    | 43 :: r => (false, r)
    | _ => (false, t)
  let ds := takeDigits t2
  if ds = [] then none
  else some (if neg then -(digitsToNat ds : Int) else (digitsToNat ds : Int))

/-- Truncation of a decimal toward zero (`parseInt(String(n))` on the
number values met here). -/
def decTrunc (q : Dec) : Int :=
  if 0 ≤ q.m then ((q.m.toNat / 10 ^ q.e : Nat) : Int)
  else -(((-q.m).toNat / 10 ^ q.e : Nat) : Int)

/-- `normPercent(v)`: null stays null, a number passes verbatim (a
fraction is NOT scaled), a string yields its first number (the `%` of the
pattern is optional). -/
def normPercent (v : Option Json) : Option Dec :=
  match v with
  | none => none
  | some Json.null => none
  | some (Json.num q) => some q
  | some (Json.str s) => scanNum s
  | some _ => none

/-- `numOrNull(x)`: null stays null, otherwise `Number(x)`. -/
def numOrNull (x : Option Json) : Option Dec :=
  match x with
  | none => none
  | some Json.null => none
  | some (Json.num q) => some q
  | some (Json.str s) => jsNumString s
  | some (Json.bool b) => some (if b then ⟨1, 0⟩ else ⟨0, 0⟩)
  | some _ => none

/-- `intOrNull(x)`: null stays null, otherwise `parseInt(String(x), 10)`. -/
def intOrNull (x : Option Json) : Option Int :=
  match x with
  | none => none
  | some Json.null => none
  | some (Json.num q) => some (decTrunc q)
  | some (Json.str s) => parseIntPrefix s
  | some _ => none

/-- The discount triple of the second variant. -/
structure DiscountFields where
  discountPercent : Option Dec
  amountOff : Option Dec
  amountOffInCents : Option Int
  deriving DecidableEq, Repr

/-- All-null discount triple. -/
def noFields : DiscountFields := ⟨none, none, none⟩

/-- Match `"key"\s*:\s*(\d+(?:\.\d+)?)` (case-insensitive; `allowFrac`
false models a bare `(\d+)` capture) at the head of `s`. -/
def keyNumAt (key : List Nat) (allowFrac : Bool) (s : List Nat) : Option Dec :=
  let pat := 34 :: (key ++ [34])
  if prefCI pat s then
    match skipWs (s.drop pat.length) with
    | 58 :: r2 =>
      let r3 := skipWs r2
      let ds := takeDigits r3
      if ds = [] then none
      else
        let v := Dec.ofNat (digitsToNat ds)
        if allowFrac then
          match r3.drop ds.length with
          | 46 :: r4 =>
            let fs := takeDigits r4
            if fs = [] then some v else some (v.add ⟨digitsToNat fs, fs.length⟩)
          | _ => some v
        else some v
    | _ => none
  else none

/-- Leftmost `keyNumAt` match. -/
def execKeyNum (key : List Nat) (allowFrac : Bool) : List Nat → Option Dec
  | [] => none
  | c :: t =>
    match keyNumAt key allowFrac (c :: t) with
    | some v => some v
    | none => execKeyNum key allowFrac t

/-- Match `"discountOff"\s*:\s*"(?:\s*)?(\d{1,3}(?:\.\d+)?)\s*%"`
(case-insensitive) at the head of `s`. -/
def discountOffStrAt (s : List Nat) : Option Dec :=
  let pat := str "\"discountOff\""
  if prefCI pat s then
    match skipWs (s.drop pat.length) with
    | 58 :: r2 =>
      match skipWs r2 with
      | 34 :: r3 =>
        let r4 := skipWs r3
        let ds := takeDigits r4
        if ds = [] ∨ 3 < ds.length then none
        else
          let v := Dec.ofNat (digitsToNat ds)
          let afterNum : Option (Dec × List Nat) :=
            match r4.drop ds.length with
            | 46 :: r5 =>
              let fs := takeDigits r5
              if fs = [] then none
              else some (v.add ⟨digitsToNat fs, fs.length⟩, r5.drop fs.length)
            | r5 => some (v, r5)
          match afterNum with
          | some (v2, r6) =>
            match skipWs r6 with
            | 37 :: 34 :: _ => some v2
            | _ => none
          | none => none
      | _ => none
    | _ => none
  else none

/-- Leftmost `discountOffStrAt` match. -/
def execDiscountOffStr : List Nat → Option Dec
  | [] => none
  | c :: t =>
    match discountOffStrAt (c :: t) with
    | some v => some v
    | none => execDiscountOffStr t

/-- Is a JSON value a JS `object` (arrays included, null excluded by the
truthiness check made alongside)? -/
def isObjLike : Json → Bool
  | Json.obj _ => true
  | Json.arr _ => true
  | _ => false

/-- Object half of `extractDiscountFieldsFromSnippet`: a truthy object
`popupPromoCode` member is preferred, otherwise the node itself supplies
`discountOff` / `amountOff` / `amountOffInCents`. -/
def extractDiscountFieldsFromObj (o : Json) : DiscountFields :=
  match o.getField (str "popupPromoCode") with
  | some p =>
    if jsTruthy p && isObjLike p then
      ⟨normPercent (p.getField (str "discountOff")),
       numOrNull (p.getField (str "amountOff")),
       intOrNull (p.getField (str "amountOffInCents"))⟩
    else
      ⟨normPercent (o.getField (str "discountOff")),
       numOrNull (o.getField (str "amountOff")),
       intOrNull (o.getField (str "amountOffInCents"))⟩
  | none =>
    ⟨normPercent (o.getField (str "discountOff")),
     numOrNull (o.getField (str "amountOff")),
     intOrNull (o.getField (str "amountOffInCents"))⟩

/-- String half of `extractDiscountFieldsFromSnippet`: the three window
regexes applied to the snippet text. -/
def extractDiscountFieldsFromText (s : List Nat) : DiscountFields :=
  ⟨execDiscountOffStr s,
   execKeyNum (str "amountOff") true s,
   (execKeyNum (str "amountOffInCents") false s).map (fun d => d.m)⟩

example : extractDiscountFieldsFromText (str "x \"discountOff\": \"20%\" y") =
    ⟨some ⟨20, 0⟩, none, none⟩ := by rfl
example : extractDiscountFieldsFromText (str "\"amountOffInCents\":2500,\"amountOff\":25") =
    ⟨none, some ⟨25, 0⟩, some 2500⟩ := by rfl
example : extractDiscountFieldsFromObj (parseJson (str "\x7b\"discountOff\":\"15%\"\x7d")
    |>.getD Json.null) = ⟨some ⟨15, 0⟩, none, none⟩ := by rfl

/-- The page-identity signature `\x7broute, productId, companyId\x7d`
produced by `getPageContext`. -/
structure Ctx where
  route : Option (List Nat)
  productId : Option (List Nat)
  companyId : Option (List Nat)

/-- JS truthiness of an optional string (null and the empty string are
falsy). -/
def optTruthy : Option (List Nat) → Bool
  | some s => !(s = [])
  | none => false

/-- `routeMatch` of the GraphQL branch of `extractPromoWithDiscounts.js`:
the POST body's `"route"` variable equals the page route case-insensitively. -/
def varRouteMatch (ctx : Ctx) (post : List Nat) : Bool :=
  let varRoute := (execCaptureKey (str "route") post).getD []
  match ctx.route with
  | some r => !(r = []) && !(varRoute = []) && (lowerL varRoute == lowerL r)
  | none => false

/-- `pidMatch`: the POST body's `"productId"` variable equals the page's
product id exactly. -/
def varPidMatch (ctx : Ctx) (post : List Nat) : Bool :=
  let v := (execCaptureKey (str "productId") post).getD []
  match ctx.productId with
  | some p => !(p = []) && !(v = []) && (v == p)
  | none => false

/-- `cidMatch`: the POST body's `"companyId"` variable equals the page's
company id exactly. -/
def varCidMatch (ctx : Ctx) (post : List Nat) : Bool :=
  let v := (execCaptureKey (str "companyId") post).getD []
  match ctx.companyId with
  | some p => !(p = []) && !(v = []) && (v == p)
  | none => false

/-- The attribution filter `accept` of `extractPromoWithDiscounts.js`
(lines 207-246), a pure function of the page context, response URL,
lowercased content type, body and request POST data (`req` is always
present at the sole call site):

1. reject unless the URL hostname ends in `whop.com` (case-insensitive);
2. accept if the body mentions `popupPromoCode` and the page route appears
   as `whop.com/<route>` in the body or `/<route>` in the URL;
3. accept if the body mentions `popupPromoCode` and carries the structured
   `"popupPromoCode"\s*:` marker;
4. for `graphql` URLs: accept exactly when the POST variables reference the
   page's route, productId or companyId;
5. accept HTML/JSON/RSC responses whose URL or body references the route;
6. otherwise reject. -/
def acceptWD (ctx : Ctx) (url ct body post : List Nat) : Bool :=
  let hn := urlHostname url
  if !(endsWithL hn (str "whop.com")) then false
  else if hasSubCI body (str "popupPromoCode") &&
      (match ctx.route with
       | some r => !(r = []) &&
           (hasSub body ((str "whop.com/") ++ r) || hasSub url (47 :: r))
       | none => false) then true
  else if hasSubCI body (str "popupPromoCode") && hasStructuredMarker body then true
  else if hasSubCI url (str "graphql") then
    varRouteMatch ctx post || varPidMatch ctx post || varCidMatch ctx post
  else if (hasSubCI ct (str "text/html") || hasSubCI ct (str "application/json") ||
      hasSubCI ct (str "text/x-component")) &&
      (match ctx.route with
       | some r => !(r = []) &&
           (hasSub url (47 :: r) || hasSub body ((str "whop.com/") ++ r))
       | none => false) then true
  else false

/-- Body-based `routeMatch` of the GraphQL branch of the second
`extractPromo.js` variant: the body contains `"route":"<route>"` or
`whop.com/<route>`. -/
def bodyRouteMatch (ctx : Ctx) (body : List Nat) : Bool :=
  match ctx.route with
  | some r => !(r = []) &&
      (hasSub body ((str "\"route\":\"") ++ r ++ [34]) ||
       hasSub body ((str "whop.com/") ++ r))
  | none => false

/-- Body-based `pidMatch`: the body contains `"productId":"<id>"`. -/
def bodyPidMatch (ctx : Ctx) (body : List Nat) : Bool :=
  match ctx.productId with
  | some p => !(p = []) && hasSub body ((str "\"productId\":\"") ++ p ++ [34])
  | none => false

/-- Body-based `cidMatch`: the body contains `"companyId":"<id>"`. -/
def bodyCidMatch (ctx : Ctx) (body : List Nat) : Bool :=
  match ctx.companyId with
  | some p => !(p = []) && hasSub body ((str "\"companyId\":\"") ++ p ++ [34])
  | none => false

/-- The attribution filter `accept` of the second `extractPromo.js` variant
(lines 516-559): as `acceptWD`, except that the GraphQL rule matches the
page identity against the response body (the response listener has no
access to POST data). -/
def acceptP (ctx : Ctx) (url ct body : List Nat) : Bool :=
  let hn := urlHostname url
  if !(endsWithL hn (str "whop.com")) then false
  else if hasSubCI body (str "popupPromoCode") &&
      (match ctx.route with
       | some r => !(r = []) &&
           (hasSub body ((str "whop.com/") ++ r) || hasSub url (47 :: r))
       | none => false) then true
  else if hasSubCI body (str "popupPromoCode") && hasStructuredMarker body then true
  else if hasSubCI url (str "graphql") then
    bodyRouteMatch ctx body || bodyPidMatch ctx body || bodyCidMatch ctx body
  else if (hasSubCI ct (str "text/html") || hasSubCI ct (str "application/json") ||
      hasSubCI ct (str "text/x-component")) &&
      (match ctx.route with
       | some r => !(r = []) &&
           (hasSub url (47 :: r) || hasSub body ((str "whop.com/") ++ r))
       | none => false) then true
  else false

example :
    acceptWD ⟨some (str "mypage"), none, none⟩ (str "https://whop.com/api/graphql")
      (str "application/json")
      (str "\x7b\"popupPromoCode\":\x7b\"code\":\"promo-abcdef\"\x7d\x7d")
      (str "\x7b\"variables\":\x7b\"route\":\"otherpage\"\x7d\x7d") = true := by decide
example :
    acceptWD ⟨some (str "mypage"), none, none⟩ (str "https://whop.com/api/graphql")
      (str "application/json") (str "feed promo-9f9f9f9f data")
      (str "\x7b\"variables\":\x7b\"route\":\"otherpage\"\x7d\x7d") = false := by decide
example :
    acceptWD ⟨some (str "mypage"), none, none⟩ (str "https://evilwhop.com/page")
      (str "text/html")
      (str "\x7b\"popupPromoCode\":\x7b\"code\":\"promo-abcdef\"\x7d\x7d")
      [] = true := by decide

/-!
The capture pipeline of `extractPopupPromoFromNetwork` in
`extractPromoWithDiscounts.js`, as a pure function of the captured
responses: the per-response handler (skip filters, precheck, candidate
gathering, attribution, bundle/window discount recovery), then
deduplication by code and ranking.
-/

/-- One captured response: URL, content-type header, decoded body, request
POST data, and its `Date.now()` capture timestamp. -/
structure RespWD where
  url : List Nat
  ct : List Nat
  body : List Nat
  post : List Nat
  ts : Dec

/-- One accepted hit of the withDiscounts pipeline. -/
structure HitWD where
  code : List Nat
  url : List Nat
  ct : List Nat
  ts : Dec
  route : Option (List Nat)
  percent_off : Option Dec
  amount_off : Option Dec
  currency : Option (List Nat)
  deriving DecidableEq, Repr

/-- The static-asset extensions of `SKIP_EXT`. -/
def skipExts : List (List Nat) :=
  [str "png", str "jpg", str "jpeg", str "gif", str "svg", str "webp",
   str "avif", str "ico", str "css", str "woff", str "woff2", str "ttf",
   str "map", str "mp4", str "webm", str "m4s", str "mp3", str "wav"]

/-- The `(\?|$)` boundary after an extension. -/
def extBoundary : List Nat → Bool
  | [] => true
  | 63 :: _ => true
  | _ => false

/-- Match `SKIP_EXT` at the head of `s`: a dot, one of the extensions
(case-insensitive), then `?` or the end. -/
def skipExtAt (s : List Nat) : Bool :=
  match s with
  | 46 :: t => skipExts.any (fun e => prefCI e t && extBoundary (t.drop e.length))
  | _ => false

/-- `SKIP_EXT.test(url)`. -/
def testSkipExt : List Nat → Bool
  | [] => false
  | c :: t => skipExtAt (c :: t) || testSkipExt t

example : testSkipExt (str "https://whop.com/a.png?x=1") = true := by decide
example : testSkipExt (str "https://whop.com/a.pngx") = false := by decide
example : testSkipExt (str "https://whop.com/page") = false := by decide

/-- `/image|font|video|audio|css/.test(ct)` on the lowercased header. -/
def mediaCt (ct : List Nat) : Bool :=
  hasSub ct (str "image") || hasSub ct (str "font") || hasSub ct (str "video") ||
    hasSub ct (str "audio") || hasSub ct (str "css")

/-- `findCodesWithIndex(s)`: all matches of the four `PROMO_REGEXES` in
pattern order, codes lowercased, with their match start indices. -/
def findCodesWithIndex (s : List Nat) : List (List Nat × Int) :=
  (scanStructured s ++ scanUrlParam s ++ scanQuoted s ++ scanBare s).map
    (fun p => (lowerL p.1, (p.2 : Int)))

/-- The `0?\.\d+` fraction capture: a nonempty digit run read as a value
below one. -/
def fracOf (r : List Nat) : Option Dec :=
  if takeDigits r = [] then none
  else some ⟨digitsToNat (takeDigits r), (takeDigits r).length⟩

/-- `/"amountOff"\s*:\s*(0?\.\d+)/` (case-sensitive) at the head of `s`. -/
def amountOffFracAt (s : List Nat) : Option Dec :=
  let pat := str "\"amountOff\""
  if prefAt pat s then
    match skipWs (s.drop pat.length) with
    | 58 :: r2 =>
      match skipWs r2 with
      | 48 :: 46 :: r3 => fracOf r3
      | 46 :: r3 => fracOf r3
      | _ => none
    | _ => none
  else none

/-- Leftmost `amountOffFracAt` match. -/
def execAmountOffFrac : List Nat → Option Dec
  | [] => none
  | c :: t =>
    match amountOffFracAt (c :: t) with
    | some v => some v
    | none => execAmountOffFrac t

/-- The windowed-text fallback percent of `extractPopupPromoFromNetwork`
(`extractPromoWithDiscounts.js` lines 297-313): the `(\d{1,2}(?:\.\d+)?)\s*%`
match, else `100 *` the `"amountOff"\s*:\s*(0?\.\d+)` fraction. -/
def fallbackPercent (win : List Nat) : Option Dec :=
  match scanPct (some 2) win with
  | some v => some v
  | none =>
    match execAmountOffFrac win with
    | some f => some (f.muln 100)
    | none => none

/-- The `±600`-character fallback window around a candidate index
(`cand.index ?? 0` is a number here, possibly `-1`). -/
def fallbackWindow (body : List Nat) (idx : Int) : List Nat :=
  let lo := (max 0 (idx - 600)).toNat
  let hi := (min (body.length : Int) (idx + 600)).toNat
  (body.drop lo).take (hi - lo)

/-- The discount triple `(percent_off, amount_off, currency)` computed for
one candidate inside the withDiscounts handler: the anchored structured
bundle when the anchor is a real index and the bundle's code agrees,
then the windowed-text fallback when both discount members are null. -/
def candDiscount (body : List Nat) (cand : List Nat × Int) :
    Option Dec × Option Dec × Option (List Nat) :=
  let fromBundle : Option Dec × Option Dec × Option (List Nat) :=
    if 0 ≤ cand.2 then
      match extractBundleFromBody body cand.2.toNat with
      | some b =>
        if b.code = cand.1 then
          match b.disc with
          | some d => (d.percent_off, d.amount_off, d.currency)
          | none => (none, none, none)
        else (none, none, none)
      | none => (none, none, none)
    else (none, none, none)
  if fromBundle.1 = none ∧ fromBundle.2.1 = none then
    let win := fallbackWindow body cand.2
    let p := fallbackPercent win
    match scanMoney win with
    | some (sym, v) => (p, some v, some (currencyOf sym))
    | none => (p, none, none)
  else fromBundle

/-- `route: ctx.route || null`. -/
def routeOrNull (o : Option (List Nat)) : Option (List Nat) :=
  match o with
  | some r => if r = [] then none else some r
  | none => none

/-- The per-response handler of the withDiscounts pipeline (lines 248-337):
asset skipping, body precheck, candidate gathering with anchors (plus the
URL `promoCode=` parameter anchored by `body.indexOf`), attribution by
`acceptWD`, and discount recovery per accepted candidate. -/
def handlerWD (ctx : Ctx) (r : RespWD) : List HitWD :=
  let ct := lowerL r.ct
  if testSkipExt r.url || mediaCt ct then []
  else if r.body = [] then []
  else if !(hasSubCI r.body (str "promo-") || hasSubCI r.body (str "popupPromoCode") ||
      hasSubCI r.body (str "promoCode")) && !(hasSubCI r.url (str "promoCode=")) then []
  else
    let cands := findCodesWithIndex r.body ++
      (match (scanUrlParam r.url).head? with
       | some (tok, _) =>
         [(lowerL tok,
           (match indexOfSub r.body tok with
            | some i => (i : Int)
            | none => -1))]
       | none => [])
    if cands = [] then []
    else
      cands.filterMap (fun cand =>
        if acceptWD ctx r.url ct r.body r.post then
          let d := candDiscount r.body cand
          some ⟨cand.1, r.url, ct, r.ts, routeOrNull ctx.route, d.1, d.2.1, d.2.2⟩
        else none)

/-- The score of the withDiscounts ranking (lines 352-380): `+1000` for a
present discount, `+40` for JSON/RSC content, `+30` for a route matching
the caller's `currentRoute`, plus `ts / 1e6`. -/
def scoreWD (currentRoute : Option (List Nat)) (h : HitWD) : Dec :=
  (((Dec.ofNat (if h.percent_off ≠ none ∨ h.amount_off ≠ none then 1000 else 0)).add
    (Dec.ofNat (if hasSub h.ct (str "application/json") ||
        hasSub h.ct (str "text/x-component") then 40 else 0))).add
    (Dec.ofNat
      (if (match h.route, currentRoute with
           | some a, some b => !(a = []) && !(b = []) && (lowerL a == lowerL b)
           | _, _ => false) then 30 else 0))).add
    (h.ts.divPow10 6)

/-- The `byCode` deduplication map of the withDiscounts pipeline: first
hit per code wins unless a later hit scores strictly higher. -/
def byCodeWD (cur : Option (List Nat)) (hits : List HitWD) : List HitWD :=
  hits.foldl
    (fun acc h =>
      if acc.any (fun x => x.code = h.code) then
        acc.map (fun prev =>
          if prev.code = h.code then
            (if Dec.blt (scoreWD cur prev) (scoreWD cur h) then h else prev)
          else prev)
      else acc ++ [h])
    []

/-- First maximal-score hit (the head of the stable descending sort). -/
def bestHitWD (cur : Option (List Nat)) : List HitWD → Option HitWD
  | [] => none
  | h :: t =>
    some (t.foldl (fun best x =>
      if Dec.blt (scoreWD cur best) (scoreWD cur x) then x else best) h)

/-- The final result of one withDiscounts invocation. -/
structure ResultWD where
  code : List Nat
  type : List Nat
  sourceUrl : List Nat
  percent_off : Option Dec
  amount_off : Option Dec
  currency : Option (List Nat)
  deriving DecidableEq, Repr

/-- The pure computation of `extractPopupPromoFromNetwork`
(`extractPromoWithDiscounts.js`) over the captured responses: run the
handler over each response, return `null` on no hits, otherwise dedupe,
rank and emit the best hit. -/
def runWD (ctx : Ctx) (currentRoute : Option (List Nat)) (rs : List RespWD) :
    Option ResultWD :=
  let hits := (rs.map (handlerWD ctx)).flatten
  if hits = [] then none
  else
    match bestHitWD currentRoute (byCodeWD currentRoute hits) with
    | some best =>
      some ⟨best.code, best.ct, best.url, best.percent_off, best.amount_off, best.currency⟩
    | none => none

example :
    runWD ⟨some (str "mypage"), none, none⟩ (some (str "mypage"))
      [⟨str "https://whop.com/mypage", str "text/html",
        str "\x7b\"popupPromoCode\":\x7b\"code\":\"promo-784ede4b\",\"discountOff\":\"20%\"\x7d\x7d",
        [], ⟨0, 0⟩⟩] =
    some ⟨str "promo-784ede4b", str "text/html", str "https://whop.com/mypage",
      some ⟨20, 0⟩, none, none⟩ := by rfl
example : runWD ⟨some (str "mypage"), none, none⟩ none
    [⟨str "https://whop.com/mypage", str "text/html", str "nothing here", [], ⟨0, 0⟩⟩] =
    none := by rfl

/-!
The capture pipeline of the second `extractPopupPromoFromNetwork` variant
(`extractPromo.js`, lines 511-769): per-response handler with the
`onlyThisCode` response filter and the response cache, the post-capture
HTML fallback, the `onlyThisCode` rescue pass, and deduplication/ranking.
-/

/-- One captured response of the second variant (a response listener: no
POST data is available). -/
structure RespP where
  url : List Nat
  ct : List Nat
  body : List Nat
  ts : Dec

/-- One accepted hit of the second variant. -/
structure HitP where
  code : List Nat
  url : List Nat
  ct : List Nat
  ts : Dec
  route : Option (List Nat)
  discountPercent : Option Dec
  amountOff : Option Dec
  amountOffInCents : Option Int
  deriving DecidableEq, Repr

/-- One cached response `\x7bbody, url, ct\x7d`. -/
structure CacheE where
  body : List Nat
  url : List Nat
  ct : List Nat
  deriving DecidableEq, Repr

/-- The final result shape of the second variant. -/
structure ResultP where
  code : List Nat
  type : List Nat
  sourceUrl : List Nat
  discountPercent : Option Dec
  amountOff : Option Dec
  amountOffInCents : Option Int
  deriving DecidableEq, Repr

/-- Order-preserving dedup (the insertion behaviour of a JS `Set`). -/
def dedupGo : List (List Nat) → List (List Nat) → List (List Nat)
  | [], acc => acc.reverse
  | x :: t, acc =>
    if acc.any (fun y => y = x) then dedupGo t acc else dedupGo t (x :: acc)

/-- `findCodes(s)` of the second variant: the captured tokens of the four
patterns, in pattern order. -/
def findCodesP (s : List Nat) : List (List Nat) :=
  (scanStructured s ++ scanUrlParam s ++ scanQuoted s ++ scanBare s).map (fun p => p.1)

/-- The bulletproof per-code discount recovery (lines 615-629 and the
rescue/HTML passes): anchor at the first case-folded occurrence of the
code, prefer the nearest parsed JSON object, fall back to the three window
regexes on a `±1200` slice. -/
def discountForCode (body code : List Nat) : DiscountFields :=
  match indexOfSub (lowerL body) (lowerL code) with
  | some codeIdx =>
    (match extractNearestJsonObject body codeIdx with
     | some obj =>
       if jsTruthy obj then
         (if isObjLike obj then extractDiscountFieldsFromObj obj
          else
            match obj with
            | Json.str s => extractDiscountFieldsFromText s
            | _ => noFields)
       else extractDiscountFieldsFromText (sliceAround body codeIdx 1200)
     | none => extractDiscountFieldsFromText (sliceAround body codeIdx 1200))
  | none => noFields

/-- The per-response handler of the second variant (lines 561-654),
returning its accepted hits and its contribution to the response cache. -/
def handlerPromoStep (ctx : Ctx) (only : Option (List Nat)) (r : RespP) :
    List HitP × List CacheE :=
  let ct := lowerL r.ct
  if mediaCt ct then ([], [])
  else if r.body = [] then ([], [])
  else if !(hasSub r.body (str "promo-") || hasSub r.body (str "popupPromoCode") ||
      hasSub r.body (str "promoCode=")) && !(hasSub r.url (str "promoCode=")) then ([], [])
  else if (match only with
           | some c => !(hasSub (lowerL r.body) (lowerL c) ||
               hasSub (lowerL r.url) ((str "promoCode=") ++ lowerL c))
           | none => false) then ([], [])
  else
    let cache :=
      if hasSubCI r.body (str "popupPromoCode") || hasPromoTok r.body ||
          hasSubCI r.body (str "promoCode=") || hasSubCI r.url (str "graphql") then
        [(⟨r.body, r.url, ct⟩ : CacheE)]
      else []
    let codes := dedupGo
      (((findCodesP r.body).map lowerL) ++
        (match (scanUrlParam r.url).head? with
         | some (tok, _) => [lowerL tok]
         | none => []))
      []
    if codes = [] then ([], cache)
    else
      let hits := codes.filterMap (fun code =>
        if acceptP ctx r.url ct r.body then
          let d := discountForCode r.body code
          some (⟨code, r.url, ct, r.ts, routeOrNull ctx.route,
            d.discountPercent, d.amountOff, d.amountOffInCents⟩ : HitP)
        else none)
      (hits, cache)

/-- JS truthiness of an optional decimal (zero is falsy). -/
def decTruthy : Option Dec → Bool
  | some q => !(q.m = 0)
  | none => false

/-- JS truthiness of an optional integer. -/
def intTruthy : Option Int → Bool
  | some n => !(n = 0)
  | none => false

/-- The `onlyThisCode` rescue pass (lines 708-741): the first cached
response containing the code whose recovered discount triple has a truthy
member yields a result for `onlyThisCode` itself. -/
def rescueP (only : List Nat) : List CacheE → Option ResultP
  | [] => none
  | r :: t =>
    if hasSub (lowerL r.body) (lowerL only) then
      let d := discountForCode r.body only
      if decTruthy d.discountPercent || decTruthy d.amountOff ||
          intTruthy d.amountOffInCents then
        some ⟨only, r.ct, r.url, d.discountPercent, d.amountOff, d.amountOffInCents⟩
      else rescueP only t
    else rescueP only t

/-- The score of the second variant's ranking (lines 750-757): `+100` for
any present discount member, `+40` for JSON/RSC, `+30` for a matching
route, plus `ts / 1e6`. -/
def scoreP (cur : Option (List Nat)) (h : HitP) : Dec :=
  (((Dec.ofNat (if h.discountPercent ≠ none ∨ h.amountOff ≠ none ∨
        h.amountOffInCents ≠ none then 100 else 0)).add
    (Dec.ofNat (if hasSub h.ct (str "application/json") ||
        hasSub h.ct (str "text/x-component") then 40 else 0))).add
    (Dec.ofNat
      (if (match h.route, cur with
           | some a, some b => !(a = []) && !(b = []) && (lowerL a == lowerL b)
           | _, _ => false) then 30 else 0))).add
    (h.ts.divPow10 6)

/-- The `byCode` deduplication of the second variant (lines 744-749): per
code, a strictly more recent hit replaces the stored one. -/
def byCodeP (hits : List HitP) : List HitP :=
  hits.foldl
    (fun acc h =>
      if acc.any (fun x => x.code = h.code) then
        acc.map (fun prev =>
          if prev.code = h.code then (if Dec.blt prev.ts h.ts then h else prev) else prev)
      else acc ++ [h])
    []

/-- First maximal-score hit of the second variant. -/
def bestHitP (cur : Option (List Nat)) : List HitP → Option HitP
  | [] => none
  | h :: t =>
    some (t.foldl (fun best x =>
      if Dec.blt (scoreP cur best) (scoreP cur x) then x else best) h)

/-- The hits and cache gathered from the captured responses. -/
def promoHitsAndCache (ctx : Ctx) (only : Option (List Nat)) (rs : List RespP) :
    List HitP × List CacheE :=
  let pairs := rs.map (handlerPromoStep ctx only)
  ((pairs.map (fun p => p.1)).flatten, (pairs.map (fun p => p.2)).flatten)

/-- The post-capture HTML fallback (lines 670-706): codes found in the
final page HTML are attributed with `ct = text/html` against the page URL
(note: the `onlyThisCode` filter does not apply here). -/
def htmlHitsP (ctx : Ctx) (pageUrl html : List Nat) (htmlTs : Dec) : List HitP :=
  if !(html = []) && (hasSub html (str "promo-") || hasSub html (str "popupPromoCode") ||
      hasSub html (str "promoCode=")) then
    (dedupGo ((findCodesP html).map lowerL) []).filterMap (fun code =>
      if acceptP ctx pageUrl (str "text/html") html then
        let d := discountForCode html code
        some (⟨code, pageUrl, str "text/html", htmlTs, routeOrNull ctx.route,
          d.discountPercent, d.amountOff, d.amountOffInCents⟩ : HitP)
      else none)
  else []

/-- The pure computation of the second `extractPopupPromoFromNetwork`
variant over the captured responses, the final page HTML and the page URL:
handler hits plus HTML-fallback hits; on no hits, the `onlyThisCode`
rescue over the cache (else `null`); otherwise dedupe, rank, emit best. -/
def runP (ctx : Ctx) (currentRoute only : Option (List Nat)) (rs : List RespP)
    (pageUrl html : List Nat) (htmlTs : Dec) : Option ResultP :=
  let hc := promoHitsAndCache ctx only rs
  let hits := hc.1 ++ htmlHitsP ctx pageUrl html htmlTs
  if hits = [] then
    match only with
    | some c => rescueP c hc.2
    | none => none
  else
    match bestHitP currentRoute (byCodeP hits) with
    | some best =>
      some ⟨best.code, best.ct, best.url, best.discountPercent, best.amountOff,
        best.amountOffInCents⟩
    | none => none

example :
    runP ⟨some (str "mypage"), none, none⟩ (some (str "mypage")) none
      [⟨str "https://whop.com/mypage", str "text/x-component",
        str "\x7b\"popupPromoCode\":\x7b\"code\":\"promo-784ede4b\",\"discountOff\":\"20%\"\x7d\x7d",
        ⟨0, 0⟩⟩]
      (str "https://whop.com/mypage") [] ⟨0, 0⟩ =
    some ⟨str "promo-784ede4b", str "text/x-component", str "https://whop.com/mypage",
      some ⟨20, 0⟩, none, none⟩ := by rfl

/-!
Claim theorems.
-/

/-- C2 (amended): a response whose URL hostname does not end in `whop.com`
(case-insensitively) is rejected by both attribution filters, whatever the
rest of the response holds. -/
theorem hostGate_rejects (ctx : Ctx) (url ct body post : List Nat)
    (h : endsWithL (urlHostname url) (str "whop.com") = false) :
    acceptWD ctx url ct body post = false ∧ acceptP ctx url ct body = false := by
  constructor
  · simp [acceptWD, h]
  · simp [acceptP, h]

/-- C2 witness: a response from `example.com` is rejected. -/
theorem hostGate_rejects_witness :
    acceptWD ⟨some (str "mypage"), none, none⟩ (str "https://example.com/mypage")
      (str "text/html") (str "\"popupPromoCode\": \x7b\x7d whop.com/mypage") [] = false ∧
    acceptP ⟨some (str "mypage"), none, none⟩ (str "https://example.com/mypage")
      (str "text/html") (str "\"popupPromoCode\": \x7b\x7d whop.com/mypage") = false :=
  hostGate_rejects _ _ _ _ _ (by decide)

/-- C2 counterexample: the gate is only a suffix test, so a response from
the foreign host `evilwhop.com` — which is neither `whop.com` nor one of
its subdomains — passes it and is accepted on its structured record. -/
theorem hostGate_suffix_counterexample :
    acceptWD ⟨some (str "mypage"), none, none⟩ (str "https://evilwhop.com/page")
      (str "text/html")
      (str "\x7b\"popupPromoCode\":\x7b\"code\":\"promo-abcdef\"\x7d\x7d") [] = true ∧
    urlHostname (str "https://evilwhop.com/page") = str "evilwhop.com" ∧
    ¬ str "evilwhop.com" = str "whop.com" ∧
    endsWithL (str "evilwhop.com") (str ".whop.com") = false := by
  refine ⟨by decide, by decide, by decide, by decide⟩

/-- C3 (amended): when the host gate passes, a body carrying the structured
promo-record marker (which mentions `popupPromoCode`) is accepted by both
filters, with or without a route signal. -/
theorem structured_record_accepted (ctx : Ctx) (url ct body post : List Nat)
    (hhost : endsWithL (urlHostname url) (str "whop.com") = true)
    (hci : hasSubCI body (str "popupPromoCode") = true)
    (hm : hasStructuredMarker body = true) :
    acceptWD ctx url ct body post = true ∧ acceptP ctx url ct body = true := by
  constructor
  · simp only [acceptWD, hhost, hci, hm, Bool.not_true, Bool.false_eq_true, if_false,
      Bool.true_and, Bool.and_true, if_true]
    split
    · rfl
    · rfl
  · simp only [acceptP, hhost, hci, hm, Bool.not_true, Bool.false_eq_true, if_false,
      Bool.true_and, Bool.and_true, if_true]
    split
    · rfl
    · rfl

/-- C3 witness: a structured record on a `whop.com` response is accepted
even without any route signal. -/
theorem structured_record_accepted_witness :
    acceptWD ⟨none, none, none⟩ (str "https://whop.com/api/graphql")
      (str "application/json")
      (str "\x7b\"popupPromoCode\":\x7b\"code\":\"promo-784ede4b\"\x7d\x7d") [] = true ∧
    acceptP ⟨none, none, none⟩ (str "https://whop.com/api/graphql")
      (str "application/json")
      (str "\x7b\"popupPromoCode\":\x7b\"code\":\"promo-784ede4b\"\x7d\x7d") = true :=
  structured_record_accepted _ _ _ _ _ (by decide) (by decide) (by decide)

/-- C3 counterexample: the claim quantifies over every response, but a
structured record with the page route in body and URL is still rejected
when the origin host fails the domain gate. -/
theorem structured_record_foreign_host_counterexample :
    hasStructuredMarker
      (str "\x7b\"popupPromoCode\":\x7b\"code\":\"promo-abcdef\"\x7d\x7d whop.com/mypage") = true ∧
    hasSub (str "\x7b\"popupPromoCode\":\x7b\"code\":\"promo-abcdef\"\x7d\x7d whop.com/mypage")
      ((str "whop.com/") ++ str "mypage") = true ∧
    acceptWD ⟨some (str "mypage"), none, none⟩ (str "https://example.com/mypage")
      (str "text/html")
      (str "\x7b\"popupPromoCode\":\x7b\"code\":\"promo-abcdef\"\x7d\x7d whop.com/mypage")
      [] = false := by
  refine ⟨by decide, by decide, by decide⟩

/-- C1 (amended): a GraphQL (query-submission) response whose body carries
no `popupPromoCode` signal and whose submitted variables match none of the
page's route, productId or companyId is rejected. -/
theorem graphql_mismatch_rejected (ctx : Ctx) (url ct body post : List Nat)
    (hg : hasSubCI url (str "graphql") = true)
    (hnp : hasSubCI body (str "popupPromoCode") = false)
    (hr : varRouteMatch ctx post = false)
    (hp : varPidMatch ctx post = false)
    (hc : varCidMatch ctx post = false) :
    acceptWD ctx url ct body post = false := by
  simp only [acceptWD, hg, hnp, hr, hp, hc, Bool.false_and, Bool.false_eq_true,
    if_false, if_true, Bool.or_self]
  split
  · rfl
  · rfl

/-- C1 witness: a feed-style GraphQL response bearing only a bare code and
variables for another page is rejected. -/
theorem graphql_mismatch_rejected_witness :
    acceptWD ⟨some (str "mypage"), some (str "prod_1"), some (str "biz_1")⟩
      (str "https://whop.com/api/graphql") (str "application/json")
      (str "feed data promo-9f9f9f9f end")
      (str "\x7b\"variables\":\x7b\"route\":\"otherpage\",\"productId\":\"prod_2\",\"companyId\":\"biz_2\"\x7d\x7d") =
      false :=
  graphql_mismatch_rejected _ _ _ _ _ (by decide) (by decide) (by decide) (by decide)
    (by decide)

/-- C1 counterexample: a GraphQL response whose submitted variables
reference a different route is still accepted when its body carries a
structured `popupPromoCode` record — the structured-record rule fires
before the query-submission rule. -/
theorem graphql_mismatch_accepted_counterexample :
    hasSubCI (str "https://whop.com/api/graphql") (str "graphql") = true ∧
    execCaptureKey (str "route") (str "\x7b\"variables\":\x7b\"route\":\"otherpage\"\x7d\x7d") =
      some (str "otherpage") ∧
    varRouteMatch ⟨some (str "mypage"), none, none⟩
      (str "\x7b\"variables\":\x7b\"route\":\"otherpage\"\x7d\x7d") = false ∧
    varPidMatch ⟨some (str "mypage"), none, none⟩
      (str "\x7b\"variables\":\x7b\"route\":\"otherpage\"\x7d\x7d") = false ∧
    varCidMatch ⟨some (str "mypage"), none, none⟩
      (str "\x7b\"variables\":\x7b\"route\":\"otherpage\"\x7d\x7d") = false ∧
    acceptWD ⟨some (str "mypage"), none, none⟩ (str "https://whop.com/api/graphql")
      (str "application/json")
      (str "\x7b\"popupPromoCode\":\x7b\"code\":\"promo-abcdef\"\x7d\x7d")
      (str "\x7b\"variables\":\x7b\"route\":\"otherpage\"\x7d\x7d") = true := by
  refine ⟨by decide, by decide, by decide, by decide, by decide, by decide⟩

/-- C5: the discount normalizer multiplies a fractional percentage in
`(0, 1]` (carried by the `amountOff` member, the field that holds fractional
discounts) by 100, and passes a bare `percentOff` number greater than 1
through unchanged. -/
theorem percent_normalization (a p : Dec)
    (h0 : 0 < a.toRat) (h1 : a.toRat ≤ 1) (_hp : 1 < p.toRat) :
    normalizeDiscountFromObject (Json.obj [(str "amountOff", Json.num a)]) =
      some ⟨some (a.muln 100), none, none⟩ ∧
    normalizeDiscountFromObject (Json.obj [(str "percentOff", Json.num p)]) =
      some ⟨some p, none, none⟩ := by
  have hz : (⟨0, 0⟩ : Dec).toRat = 0 := by norm_num [Dec.toRat]
  have ho : (⟨1, 0⟩ : Dec).toRat = 1 := by norm_num [Dec.toRat]
  have hblt : Dec.blt ⟨0, 0⟩ a = true := (Dec.blt_iff _ _).mpr (by rw [hz]; exact h0)
  have hble : Dec.ble a ⟨1, 0⟩ = true := (Dec.ble_iff _ _).mpr (by rw [ho]; exact h1)
  have hpct : percentFromObject (Json.obj [(str "amountOff", Json.num a)]) =
      if Dec.blt ⟨0, 0⟩ a && Dec.ble a ⟨1, 0⟩ then some (a.muln 100) else none := rfl
  rw [hblt, hble] at hpct
  simp only [Bool.and_self, if_true] at hpct
  have hamt : amountFromObject (Json.obj [(str "amountOff", Json.num a)]) =
      (none, none) := rfl
  constructor
  · simp [normalizeDiscountFromObject, hpct, hamt]
  · rfl

/-- C5 witness: `0.30` normalizes to `percentOff = 30`; `45` stays `45`. -/
theorem percent_normalization_witness :
    normalizeDiscountFromObject (Json.obj [(str "amountOff", Json.num ⟨3, 1⟩)]) =
      some ⟨some (Dec.muln ⟨3, 1⟩ 100), none, none⟩ ∧
    normalizeDiscountFromObject (Json.obj [(str "percentOff", Json.num ⟨45, 0⟩)]) =
      some ⟨some ⟨45, 0⟩, none, none⟩ ∧
    (⟨3, 1⟩ : Dec).toRat = 3 / 10 ∧ (Dec.muln ⟨3, 1⟩ 100).toRat = 30 ∧
    (⟨45, 0⟩ : Dec).toRat = 45 := by
  have h := percent_normalization ⟨3, 1⟩ ⟨45, 0⟩ (by norm_num [Dec.toRat])
    (by norm_num [Dec.toRat]) (by norm_num [Dec.toRat])
  exact ⟨h.1, h.2, by norm_num [Dec.toRat], by norm_num [Dec.muln, Dec.toRat],
    by norm_num [Dec.toRat]⟩

/-- C6: a present `DiscountRecord` produced by the normalizer always has a
non-null `percent_off` or a non-null `amount_off`; an all-null record is
reported as absent. -/
theorem present_record_has_discount (o : Json) (r : DiscountRecord)
    (h : normalizeDiscountFromObject o = some r) :
    r.percent_off ≠ none ∨ r.amount_off ≠ none := by
  have hg : (if percentFromObject o = none ∧ (amountFromObject o).1 = none then none
      else some (⟨percentFromObject o, (amountFromObject o).1,
        (amountFromObject o).2⟩ : DiscountRecord)) = some r := h
  split at hg
  · exact absurd hg (by simp)
  · rename_i hcond
    injection hg with h2
    subst h2
    dsimp only
    tauto

/-- C6 witness: a record with a percent present is reported with a
non-null field. -/
theorem present_record_has_discount_witness :
    (⟨some ⟨45, 0⟩, none, none⟩ : DiscountRecord).percent_off ≠ none ∨
    (⟨some ⟨45, 0⟩, none, none⟩ : DiscountRecord).amount_off ≠ none :=
  present_record_has_discount (Json.obj [(str "percentOff", Json.num ⟨45, 0⟩)]) _
    (by rfl)

/-- C8: discount-bundle extraction is a pure function of the body and the
offset — two runs on equal inputs give equal `DiscountRecord` output (the
embedding is stateless exactly because the source function reads nothing
but its arguments). -/
theorem bundle_extraction_deterministic (b1 b2 : List Nat) (i1 i2 : Nat)
    (hb : b1 = b2) (hi : i1 = i2) :
    extractBundleFromBody b1 i1 = extractBundleFromBody b2 i2 := by
  rw [hb, hi]

/-- C8 witness: two runs on a concrete body and offset agree (and find the
same record). -/
theorem bundle_extraction_deterministic_witness :
    extractBundleFromBody
      (str "x\x7b\"popupPromoCode\":\x7b\"code\":\"promo-784ede4b\",\"discountOff\":\"20%\"\x7d\x7dy") 25 =
    extractBundleFromBody
      (str "x\x7b\"popupPromoCode\":\x7b\"code\":\"promo-784ede4b\",\"discountOff\":\"20%\"\x7d\x7dy") 25 :=
  bundle_extraction_deterministic _ _ _ _ rfl rfl

/-- A digit run's value is below `10 ^ length` (auxiliary form). -/
theorem digitsToNat_aux_lt (ds : List Nat) (acc : Nat)
    (h : ∀ d ∈ ds, isDigit d = true) :
    ds.foldl (fun acc d => acc * 10 + (d - 48)) acc < (acc + 1) * 10 ^ ds.length := by
  induction ds generalizing acc with
  | nil =>
    simp only [List.foldl_nil, List.length_nil, pow_zero, mul_one]
    exact Nat.lt_succ_self acc
  | cons d t ih =>
    have hd : isDigit d = true := h d (List.mem_cons_self d t)
    have hd9 : d - 48 ≤ 9 := by
      unfold isDigit at hd
      simp only [decide_eq_true_eq] at hd
      omega
    have ht : ∀ x ∈ t, isDigit x = true := fun x hx => h x (List.mem_cons_of_mem d hx)
    calc (d :: t).foldl (fun acc d => acc * 10 + (d - 48)) acc
        = t.foldl (fun acc d => acc * 10 + (d - 48)) (acc * 10 + (d - 48)) := rfl
      _ < (acc * 10 + (d - 48) + 1) * 10 ^ t.length := ih _ ht
      _ ≤ (acc + 1) * 10 ^ (d :: t).length := by
          simp only [List.length_cons, pow_succ]
          have : acc * 10 + (d - 48) + 1 ≤ (acc + 1) * 10 := by omega
          calc (acc * 10 + (d - 48) + 1) * 10 ^ t.length
              ≤ ((acc + 1) * 10) * 10 ^ t.length :=
                Nat.mul_le_mul_right _ this
            _ = (acc + 1) * (10 ^ t.length * 10) := by ring
  
/-- A digit run's value is below `10 ^ length`. -/
theorem digitsToNat_lt (ds : List Nat) (h : ∀ d ∈ ds, isDigit d = true) :
    digitsToNat ds < 10 ^ ds.length := by
  have := digitsToNat_aux_lt ds 0 h
  simpa [digitsToNat] using this

/-- Members of `takeDigits` are digits. -/
theorem takeDigits_digits (s : List Nat) : ∀ d ∈ takeDigits s, isDigit d = true :=
  fun _ hd => List.mem_takeWhile_imp hd

/-- The value of a fraction capture is nonnegative and below one. -/
theorem fracOf_toRat_lt_one (r : List Nat) (f : Dec) (h : fracOf r = some f) :
    f.toRat < 1 := by
  unfold fracOf at h
  split at h
  · exact absurd h (by simp)
  · injection h with h2
    subst h2
    have hlt := digitsToNat_lt (takeDigits r) (takeDigits_digits r)
    unfold Dec.toRat
    rw [div_lt_one (by positivity)]
    calc ((digitsToNat (takeDigits r) : Int) : ℚ)
        < ((10 : ℚ)) ^ (takeDigits r).length := by exact_mod_cast hlt
      _ = _ := by norm_num

/-- The percent value matched by the capped pattern at one position is
below 100. -/
theorem matchPctAt_lt (s : List Nat) (q : Dec)
    (h : matchPctAt (some 2) s = some q) : q.toRat < 100 := by
  have hds := digitsToNat_lt (takeDigits s) (takeDigits_digits s)
  unfold matchPctAt at h
  split at h
  · exact absurd h (by simp)
  split at h
  · exact absurd h (by simp)
  rename_i hne hcap
  have hlen : (takeDigits s).length ≤ 2 := by
    simp only [decide_eq_true_eq] at hcap
    omega
  have h100 : digitsToNat (takeDigits s) < 100 := by
    have hp : (10 : Nat) ^ (takeDigits s).length ≤ 10 ^ 2 :=
      Nat.pow_le_pow_right (by omega) hlen
    calc digitsToNat (takeDigits s) < 10 ^ (takeDigits s).length := hds
      _ ≤ 100 := by omega
  have hv : (Dec.ofNat (digitsToNat (takeDigits s))).toRat ≤ 99 := by
    rw [Dec.toRat_ofNat]
    exact_mod_cast Nat.lt_succ_iff.mp h100
  split at h
  · rename_i r2 heq
    split at h
    · exact absurd h (by simp)
    rename_i hfne
    split at h
    · injection h with h2
      subst h2
      rw [Dec.toRat_add]
      have hfrac : (⟨(digitsToNat (takeDigits r2) : Int),
          (takeDigits r2).length⟩ : Dec).toRat < 1 := by
        apply fracOf_toRat_lt_one r2
        unfold fracOf
        rw [if_neg hfne]
      linarith
    · exact absurd h (by simp)
  · split at h
    · injection h with h2
      subst h2
      linarith
    · exact absurd h (by simp)

/-- The leftmost capped percent match is below 100. -/
theorem scanPct_lt (s : List Nat) (q : Dec) (h : scanPct (some 2) s = some q) :
    q.toRat < 100 := by
  induction s with
  | nil => exact absurd h (by simp [scanPct])
  | cons c t ih =>
    unfold scanPct at h
    split at h
    · rename_i v hv
      injection h with h2
      subst h2
      exact matchPctAt_lt _ _ hv
    · exact ih h

/-- Any value of the fraction scanner is below one. -/
theorem execAmountOffFrac_lt (s : List Nat) (f : Dec)
    (h : execAmountOffFrac s = some f) : f.toRat < 1 := by
  induction s with
  | nil => exact absurd h (by simp [execAmountOffFrac])
  | cons c t ih =>
    unfold execAmountOffFrac at h
    split at h
    · rename_i v hv
      injection h with h2
      subst h2
      simp only [amountOffFracAt] at hv
      split at hv
      · split at hv
        · split at hv
          · exact fracOf_toRat_lt_one _ _ hv
          · exact fracOf_toRat_lt_one _ _ hv
          · exact absurd hv (by simp)
        · exact absurd hv (by simp)
      · exact absurd hv (by simp)
    · exact ih h

/-- C10 (amended): every percent the windowed-text fallback produces is
strictly below 100 — the `\d{1,2}` pattern caps the integer part at two
digits and the `0?\.\d+` fraction rescue is scaled from a value below one. -/
theorem fallback_percent_lt_100 (win : List Nat) (q : Dec)
    (h : fallbackPercent win = some q) : q.toRat < 100 := by
  unfold fallbackPercent at h
  split at h
  · rename_i v hv
    injection h with h2
    subst h2
    exact scanPct_lt _ _ hv
  · split at h
    · rename_i f hf
      injection h with h2
      subst h2
      rw [Dec.toRat_muln]
      have := execAmountOffFrac_lt _ _ hf
      push_cast
      nlinarith [this, Dec.toRat]
    · exact absurd h (by simp)

/-- C10 witness: a two-digit percent is matched and is below 100. -/
theorem fallback_percent_lt_100_witness :
    fallbackPercent (str "save 20% now") = some ⟨20, 0⟩ ∧ (⟨20, 0⟩ : Dec).toRat < 100 :=
  ⟨by rfl, fallback_percent_lt_100 (str "save 20% now") ⟨20, 0⟩ (by rfl)⟩

/-- C10 counterexample: a body whose only discount signal is the
three-digit `100%` does NOT yield `none` from the fallback — the pattern
slides one character and matches `00%`, yielding a (spurious) percent 0. -/
theorem fallback_three_digit_counterexample :
    fallbackPercent (str "take 100% today") = some ⟨0, 0⟩ ∧
    (⟨0, 0⟩ : Dec).toRat = 0 ∧ ¬ fallbackPercent (str "take 100% today") = none := by
  refine ⟨by rfl, by norm_num [Dec.toRat], by decide⟩

/-- The score gap of the withDiscounts ranking: a discounted hit outscores
an undiscounted hit with the same code whenever the undiscounted one is
captured less than `930e6` milliseconds later — the `+1000` discount
weight dominates the at most `40 + 30` content bonuses plus the
`ts / 1e6` recency term. -/
theorem scoreWD_discount_gap (cur : Option (List Nat)) (d n : HitWD)
    (hd : d.percent_off ≠ none ∨ d.amount_off ≠ none)
    (hn1 : n.percent_off = none) (hn2 : n.amount_off = none)
    (hts : n.ts.toRat - d.ts.toRat < 930 * 10 ^ 6) :
    (scoreWD cur n).toRat < (scoreWD cur d).toRat := by
  unfold scoreWD
  rw [Dec.toRat_add, Dec.toRat_add, Dec.toRat_add, Dec.toRat_divPow10,
    Dec.toRat_ofNat, Dec.toRat_ofNat, Dec.toRat_ofNat,
    Dec.toRat_add, Dec.toRat_add, Dec.toRat_add, Dec.toRat_divPow10,
    Dec.toRat_ofNat, Dec.toRat_ofNat, Dec.toRat_ofNat]
  rw [if_pos hd, if_neg (by simp [hn1, hn2])]
  split_ifs <;> push_cast <;> linarith

/-- C4 (amended): for two accepted same-code candidates of which exactly
the first carries a discount record, deduplication keeps the discounted
one — in either arrival order — provided the undiscounted candidate is not
more than `930e6` ms more recent (within one page visit the gap is
milliseconds; an arbitrarily later timestamp can overturn the choice). -/
theorem dedup_prefers_discount (cur : Option (List Nat)) (d n : HitWD)
    (hcode : d.code = n.code)
    (hd : d.percent_off ≠ none ∨ d.amount_off ≠ none)
    (hn1 : n.percent_off = none) (hn2 : n.amount_off = none)
    (hts : n.ts.toRat - d.ts.toRat < 930 * 10 ^ 6) :
    byCodeWD cur [d, n] = [d] ∧ byCodeWD cur [n, d] = [d] := by
  have hgap := scoreWD_discount_gap cur d n hd hn1 hn2 hts
  have hb1 : Dec.blt (scoreWD cur d) (scoreWD cur n) = false :=
    Bool.eq_false_iff.mpr (fun hc => absurd ((Dec.blt_iff _ _).mp hc) (not_lt_of_gt hgap))
  have hb2 : Dec.blt (scoreWD cur n) (scoreWD cur d) = true :=
    (Dec.blt_iff _ _).mpr hgap
  constructor
  · simp [byCodeWD, hcode, hb1, hb2]
  · simp [byCodeWD, ← hcode, hb1, hb2]

/-- C4 witness: with capture timestamps one second apart the discounted
candidate survives both orders. -/
theorem dedup_prefers_discount_witness :
    byCodeWD none
      [⟨str "promo-aaaaaa", str "u", str "text/html", ⟨1000, 0⟩, none, some ⟨20, 0⟩, none, none⟩,
       ⟨str "promo-aaaaaa", str "u", str "application/json", ⟨2000, 0⟩, none, none, none, none⟩] =
      [⟨str "promo-aaaaaa", str "u", str "text/html", ⟨1000, 0⟩, none, some ⟨20, 0⟩, none, none⟩] ∧
    byCodeWD none
      [⟨str "promo-aaaaaa", str "u", str "application/json", ⟨2000, 0⟩, none, none, none, none⟩,
       ⟨str "promo-aaaaaa", str "u", str "text/html", ⟨1000, 0⟩, none, some ⟨20, 0⟩, none, none⟩] =
      [⟨str "promo-aaaaaa", str "u", str "text/html", ⟨1000, 0⟩, none, some ⟨20, 0⟩, none, none⟩] :=
  dedup_prefers_discount none _ _ rfl (Or.inl (by decide)) rfl rfl
    (by norm_num [Dec.toRat])

/-- C4 counterexample: the recency term `ts / 1e6` is unbounded, so an
undiscounted same-code candidate captured much later (here at epoch
`2e12` ms against epoch 0) overturns the discounted one — the claim's
`irrespective of capture timestamps` fails. -/
theorem dedup_recency_counterexample :
    byCodeWD none
      [⟨str "promo-aaaaaa", str "u", str "text/html", ⟨0, 0⟩, none, some ⟨20, 0⟩, none, none⟩,
       ⟨str "promo-aaaaaa", str "u", str "text/html", ⟨2000000000000, 0⟩, none, none, none, none⟩] =
      [⟨str "promo-aaaaaa", str "u", str "text/html", ⟨2000000000000, 0⟩, none, none, none, none⟩] ∧
    (some ⟨20, 0⟩ : Option Dec) ≠ none := by
  refine ⟨by decide, by decide⟩

/-- A response with no promo-shaped text yields no hits in the
withDiscounts handler (the cheap precheck bails out). -/
theorem handlerWD_no_promo (ctx : Ctx) (r : RespWD)
    (h1 : hasSubCI r.body (str "promo-") = false)
    (h2 : hasSubCI r.body (str "popupPromoCode") = false)
    (h3 : hasSubCI r.body (str "promoCode") = false)
    (h4 : hasSubCI r.url (str "promoCode=") = false) :
    handlerWD ctx r = [] := by
  simp [handlerWD, h1, h2, h3, h4]

/-- A response with no promo-shaped text yields neither hits nor cache
entries in the second variant's handler. -/
theorem handlerPromoStep_no_promo (ctx : Ctx) (only : Option (List Nat)) (r : RespP)
    (h1 : hasSub r.body (str "promo-") = false)
    (h2 : hasSub r.body (str "popupPromoCode") = false)
    (h3 : hasSub r.body (str "promoCode=") = false)
    (h4 : hasSub r.url (str "promoCode=") = false) :
    handlerPromoStep ctx only r = ([], []) := by
  simp [handlerPromoStep, h1, h2, h3, h4]

/-- Promo-free page HTML contributes no fallback hits. -/
theorem htmlHitsP_no_promo (ctx : Ctx) (pageUrl html : List Nat) (ts : Dec)
    (h1 : hasSub html (str "promo-") = false)
    (h2 : hasSub html (str "popupPromoCode") = false)
    (h3 : hasSub html (str "promoCode=") = false) :
    htmlHitsP ctx pageUrl html ts = [] := by
  simp [htmlHitsP, h1, h2, h3]

/-- C7 (amended): an invocation in which no candidate is accepted returns
the absent result — by construction of the total model, never an error —
with one exception: when `onlyThisCode` is set, the rescue pass may still
produce a result from cached responses.  Four parts: (1) the withDiscounts
engine returns `null` whenever its handler produced no hits; (2) with
`onlyThisCode` unset, the second engine returns `null` whenever neither
the handlers nor the HTML fallback produced hits; (3, 4) in particular,
when no promo-shaped text appears anywhere in the captured traffic (nor,
for the second variant, in the final page HTML), both engines return
`null` whatever the parameters, `onlyThisCode` included. -/
theorem no_promo_traffic_yields_none :
    (∀ (ctx : Ctx) (cur : Option (List Nat)) (rs : List RespWD),
      (rs.map (handlerWD ctx)).flatten = [] → runWD ctx cur rs = none) ∧
    (∀ (ctx : Ctx) (cur : Option (List Nat)) (rs : List RespP)
        (pageUrl html : List Nat) (ts : Dec),
      (promoHitsAndCache ctx none rs).1 = [] →
      htmlHitsP ctx pageUrl html ts = [] →
      runP ctx cur none rs pageUrl html ts = none) ∧
    (∀ (ctx : Ctx) (cur : Option (List Nat)) (rs : List RespWD),
      (∀ r ∈ rs, hasSubCI r.body (str "promo-") = false ∧
        hasSubCI r.body (str "popupPromoCode") = false ∧
        hasSubCI r.body (str "promoCode") = false ∧
        hasSubCI r.url (str "promoCode=") = false) →
      runWD ctx cur rs = none) ∧
    (∀ (ctx : Ctx) (cur only : Option (List Nat)) (rs : List RespP)
        (pageUrl html : List Nat) (ts : Dec),
      (∀ r ∈ rs, hasSub r.body (str "promo-") = false ∧
        hasSub r.body (str "popupPromoCode") = false ∧
        hasSub r.body (str "promoCode=") = false ∧
        hasSub r.url (str "promoCode=") = false) →
      hasSub html (str "promo-") = false →
      hasSub html (str "popupPromoCode") = false →
      hasSub html (str "promoCode=") = false →
      runP ctx cur only rs pageUrl html ts = none) := by
  refine ⟨?_, ?_, ?_, ?_⟩
  · intro ctx cur rs hh
    simp [runWD, hh]
  · intro ctx cur rs pageUrl html ts h1 h2
    simp [runP, h1, h2]
  · intro ctx cur rs hall
    have hh : (rs.map (handlerWD ctx)).flatten = ([] : List HitWD) := by
      induction rs with
      | nil => rfl
      | cons r t ih =>
        have hr := hall r (List.mem_cons_self r t)
        simp [handlerWD_no_promo ctx r hr.1 hr.2.1 hr.2.2.1 hr.2.2.2,
          ih (fun x hx => hall x (List.mem_cons_of_mem _ hx))]
    simp [runWD, hh]
  · intro ctx cur only rs pageUrl html ts hall hh1 hh2 hh3
    have hp : promoHitsAndCache ctx only rs = ([], []) := by
      unfold promoHitsAndCache
      induction rs with
      | nil => rfl
      | cons r t ih =>
        have hr := hall r (List.mem_cons_self r t)
        have hstep := handlerPromoStep_no_promo ctx only r hr.1 hr.2.1 hr.2.2.1 hr.2.2.2
        have ihr := ih (fun x hx => hall x (List.mem_cons_of_mem _ hx))
        simp only [List.map_cons, List.flatten_cons, hstep, List.nil_append]
        exact ihr
    have hhtml := htmlHitsP_no_promo ctx pageUrl html ts hh1 hh2 hh3
    cases only with
    | none => simp [runP, hp, hhtml]
    | some c => simp [runP, hp, hhtml, rescueP]

/-- C7 witness: promo-free traffic gives `none` from both engines, and an
invocation whose only response is scanned but rejected (the
GraphQL-mismatch response) also gives `none` when `onlyThisCode` is unset. -/
theorem no_promo_traffic_yields_none_witness :
    runWD ⟨some (str "mypage"), none, none⟩ none
      [⟨str "https://whop.com/api/graphql", str "application/json",
        str "feed promo-9f9f9f9f data", str "\x7b\"route\":\"otherpage\"\x7d", ⟨0, 0⟩⟩] =
      none ∧
    runP ⟨some (str "mypage"), none, none⟩ none none
      [⟨str "https://whop.com/api/graphql", str "application/json",
        str "feed \"amountOff\":25, \"code\":\"promo-aaaaaa\" tail", ⟨0, 0⟩⟩]
      (str "https://whop.com/mypage") [] ⟨0, 0⟩ = none ∧
    runWD ⟨none, none, none⟩ none
      [⟨str "https://whop.com/x", str "text/html", str "hello world", [], ⟨0, 0⟩⟩] = none ∧
    runP ⟨none, none, none⟩ none none
      [⟨str "https://whop.com/x", str "text/html", str "hello world", ⟨0, 0⟩⟩]
      (str "https://whop.com/x") (str "<html>no codes</html>") ⟨0, 0⟩ = none :=
  ⟨no_promo_traffic_yields_none.1 _ _ _ (by rfl),
   no_promo_traffic_yields_none.2.1 _ _ _ _ _ _ (by rfl) (by rfl),
   no_promo_traffic_yields_none.2.2.1 _ _ _ (by decide),
   no_promo_traffic_yields_none.2.2.2 _ _ _ _ _ _ _ (by decide) (by decide) (by decide)
     (by decide)⟩

/-- C7 counterexample: with `onlyThisCode` set, an invocation in which
zero candidates are accepted (the sole response is rejected by the
GraphQL rule) still returns a non-null result through the rescue pass,
which recovers discount data for the known code from the cached response. -/
theorem rescue_without_accept_counterexample :
    (promoHitsAndCache ⟨some (str "mypage"), none, none⟩ (some (str "promo-aaaaaa"))
      [⟨str "https://whop.com/api/graphql", str "application/json",
        str "feed \"amountOff\":25, \"code\":\"promo-aaaaaa\" tail", ⟨0, 0⟩⟩]).1 = [] ∧
    runP ⟨some (str "mypage"), none, none⟩ none (some (str "promo-aaaaaa"))
      [⟨str "https://whop.com/api/graphql", str "application/json",
        str "feed \"amountOff\":25, \"code\":\"promo-aaaaaa\" tail", ⟨0, 0⟩⟩]
      (str "https://whop.com/mypage") [] ⟨0, 0⟩ =
      some ⟨str "promo-aaaaaa", str "application/json",
        str "https://whop.com/api/graphql", none, some ⟨25, 0⟩, none⟩ := by
  refine ⟨by rfl, by rfl⟩

/-- C9 (amended): with `onlyThisCode` set, the restriction operates at
response granularity — a captured response whose body does not contain the
code (case-insensitively) and whose URL does not contain the (incurably
capitalized, hence never-matching) `promoCode=` needle contributes neither
hits nor cache entries. -/
theorem onlyThisCode_response_filter (ctx : Ctx) (code : List Nat) (r : RespP)
    (hb : hasSub (lowerL r.body) (lowerL code) = false)
    (hu : hasSub (lowerL r.url) ((str "promoCode=") ++ lowerL code) = false) :
    handlerPromoStep ctx (some code) r = ([], []) := by
  simp [handlerPromoStep, hb, hu]

/-- C9 witness: a response carrying only a different code is skipped
entirely when `onlyThisCode` is another code. -/
theorem onlyThisCode_response_filter_witness :
    handlerPromoStep ⟨some (str "mypage"), none, none⟩ (some (str "promo-aaaaaa"))
      ⟨str "https://whop.com/mypage", str "application/json",
       str "\x7b\"popupPromoCode\":\x7b\"code\":\"promo-bbbbbb\"\x7d\x7d", ⟨0, 0⟩⟩ =
      ([], []) :=
  onlyThisCode_response_filter _ _ _ (by decide) (by decide)

/-- C9 counterexample: `onlyThisCode` does not restrict which codes are
accepted — a response containing the known code alongside another code
yields hits for both, and the other code wins the ranking, so the returned
result's code differs from `onlyThisCode`. -/
theorem onlyThisCode_other_result_counterexample :
    hasSub
      (lowerL (str "\x7b\"popupPromoCode\":\x7b\"code\":\"promo-bbbbbb\",\"discountOff\":\"20%\"\x7d,\"x\":\"promo-aaaaaa\"\x7d"))
      (lowerL (str "promo-aaaaaa")) = true ∧
    (runP ⟨some (str "mypage"), none, none⟩ (some (str "mypage")) (some (str "promo-aaaaaa"))
      [⟨str "https://whop.com/mypage", str "application/json",
        str "\x7b\"popupPromoCode\":\x7b\"code\":\"promo-bbbbbb\",\"discountOff\":\"20%\"\x7d,\"x\":\"promo-aaaaaa\"\x7d",
        ⟨0, 0⟩⟩]
      (str "https://whop.com/mypage") [] ⟨0, 0⟩).map (fun res => res.code) =
      some (str "promo-bbbbbb") ∧
    ¬ str "promo-bbbbbb" = str "promo-aaaaaa" := by
  refine ⟨by decide, by rfl, by decide⟩
